import Mathlib

/-! Verification of webwire-go examples: client handshake and server connection
lifecycle.

A shallow embedding of the vendored webwire client (`compareSubProtocols`,
`verifyProtocolVersion`, `dial`, `backgroundReconnect`) and of the
server-side `connection` (task accounting, `Close`, `CreateSession`),
followed by the properties proved about them.

Conventions of the embedding:
* a Go `[]byte` is `Option (List (Fin 256))`, `none` being the nil slice and
  `some []` the empty non-nil slice;
* a Go `error` result is `Option Error`, `none` being the nil error;
* `int32` arithmetic is `Int` arithmetic followed by `wrapInt32`;
* calls into collaborators whose code is outside the sources (socket,
  session registry, hooks) are recorded in the state they act on, and their
  results are inputs of the embedded function.
-/

namespace Webwire

/-! ## Go values -/

/-- A Go `[]byte`: `none` is the nil slice. -/
abbrev Bytes := Option (List (Fin 256))

/-- Go's builtin `copy(dst, src)` on byte slices: the first
`min (len dst) (len src)` elements of `dst` are overwritten. -/
def goCopy (dst src : List (Fin 256)) : List (Fin 256) :=
  src.take dst.length ++ dst.drop src.length

/-- Go's `make([]byte, n)`: `n` zero bytes. -/
def goMake (n : Nat) : List (Fin 256) := List.replicate n 0

/-- Go's `bytes.Equal(a, b)`: equal length and equal content; a nil slice is
treated as an empty one. -/
def bytesEqual (a b : Bytes) : Bool :=
  decide (a.getD [] = b.getD [])

mutual
/-- An argument handed to a `fmt` formatting verb. -/
inductive FmtArg where
  | bytes (b : Bytes)
  | num (n : Nat)
  | str (s : String)
  | err (e : Error)
/-- The dynamic types of the `error` values that occur in the code. The value
built by `fmt.Errorf(format, args...)` is kept as the format string together
with its arguments. -/
inductive Error where
  /-- The type `client.ErrMismatchSubProto` (errors.go). -/
  | ErrMismatchSubProto (ClientSubProto ServerSubProto : Bytes)
  /-- The type `wwr.ErrIncompatibleProtocolVersion`. -/
  | ErrIncompatibleProtocolVersion (RequiredVersion SupportedVersion : String)
  /-- The type `wwr.ErrDisconnected`, with its optional `Cause`. -/
  | ErrDisconnected (Cause : Option Error)
  /-- The type `wwrerr.SessionsDisabledErr`. -/
  | SessionsDisabledErr
  /-- The type `wwrerr.DisconnectedErr`, with its optional `Cause`. -/
  | DisconnectedErr (Cause : Option Error)
  /-- The result of `fmt.Errorf`. -/
  | Errorf (format : String) (args : List FmtArg)
  /-- An error produced outside the embedded code (transport, encoder, hook),
  known by its text only. -/
  | external (text : String)
  /-- The type `wwr.ErrProtocol`, with its optional `Cause`. -/
  | ErrProtocol (Cause : Option Error)
  /-- The type `wwr.ErrTransmission`, with its optional `Cause`. -/
  | ErrTransmission (Cause : Option Error)
  /-- The type `wwr.ErrRequest`; `Code` and `Message` are Go strings, kept as
  their bytes. -/
  | ErrRequest (Code Message : List (Fin 256))
  /-- The type `wwr.ErrInternal`. -/
  | ErrInternal
  /-- The type `wwr.ErrServerShutdown`. -/
  | ErrServerShutdown
  /-- The type `wwr.ErrSessionNotFound`. -/
  | ErrSessionNotFound
  /-- The type `wwr.ErrMaxSessConnsReached`. -/
  | ErrMaxSessConnsReached
  /-- The type `wwr.ErrSessionsDisabled`. -/
  | ErrSessionsDisabled
end

/-! ## compareSubProtocols.go -/

/-- The function `copyBytes` of compareSubProtocols.go. -/
def copyBytes (source : Bytes) : Bytes :=
  match source with
  | none => none
  | some src =>
    let result := goMake src.length
    some (goCopy result src)

/-- The function `compareSubProtocols` of compareSubProtocols.go. -/
def compareSubProtocols (serverSubProto clientSubProto : Bytes) : Option Error :=
  if serverSubProto ≠ none ∧ clientSubProto = none then
    some (Error.ErrMismatchSubProto none (copyBytes serverSubProto))
  else if serverSubProto = none ∧ clientSubProto ≠ none then
    some (Error.ErrMismatchSubProto (copyBytes clientSubProto) none)
  else if serverSubProto ≠ none ∧ clientSubProto ≠ none ∧
      !bytesEqual serverSubProto clientSubProto then
    some (Error.ErrMismatchSubProto (copyBytes clientSubProto) (copyBytes serverSubProto))
  else
    none

/-! ## verifyProtocolVersion.go -/

/-- The call `fmt.Sprintf("%d.%d", major, minor)`. -/
def sprintfVersion (major minor : Fin 256) : String :=
  toString major.val ++ "." ++ toString minor.val

/-- The function `verifyProtocolVersion` of verifyProtocolVersion.go. -/
def verifyProtocolVersion (major minor : Fin 256) : Option Error :=
  if major ≠ 2 then
    some (Error.ErrIncompatibleProtocolVersion (sprintfVersion major minor) "2.x")
  else
    none

/-! ## dial.go -/

/-- The fields of `message.ServerConfiguration` that `dial` reads. The type is
declared in package `message`, outside the sources; `MessageBufferSize` is an
unsigned integer that is only compared. -/
structure ServerConfiguration where
  MajorProtocolVersion : Fin 256
  MinorProtocolVersion : Fin 256
  SubProtocolName : Bytes
  MessageBufferSize : Nat
  deriving DecidableEq, Repr

/-- The zero value of `message.ServerConfiguration`. -/
def ServerConfiguration.zero : ServerConfiguration :=
  { MajorProtocolVersion := 0, MinorProtocolVersion := 0,
    SubProtocolName := none, MessageBufferSize := 0 }

/-- The fields of `message.Message` that `dial` reads. -/
structure Message where
  MsgType : Fin 256
  ServerConfiguration : ServerConfiguration
  deriving DecidableEq, Repr

/-- The fields of the client options that `dial` reads. -/
structure Options where
  SubProtocolName : Bytes
  MessageBufferSize : Nat
  deriving DecidableEq, Repr

/-- The error returned by `clt.conn.Read`: it answers `IsCloseErr()` and
`Error()`. -/
structure SockReadErr where
  isCloseErr : Bool
  text : String
  deriving DecidableEq, Repr

/-- The local type `dialResult` of `dial`. -/
structure dialResult where
  serverConfiguration : ServerConfiguration
  err : Option Error

/-- What the goroutine started by `dial` has done when it returns: the value
it sent on the `result` channel, if any, and whether it closed the socket and
released the message buffer. -/
structure RoutineOutcome where
  sent : Option dialResult
  connClosed : Bool
  msgClosed : Bool

/-- The goroutine started by `dial`. `MsgAcceptConf` is the constant of package
`message`; `connDial` and `connRead` are the results of `clt.conn.Dial` and
`clt.conn.Read`; `abort1`, `abort2`, `abort3` say whether the three successive
loads of `abortAwait` find it set. -/
def dialRoutine (MsgAcceptConf : Fin 256) (options : Options)
    (connDial : Option Error) (connRead : Except SockReadErr Message)
    (abort1 abort2 abort3 : Bool) : RoutineOutcome :=
  match connDial with
  | some err => ⟨some ⟨ServerConfiguration.zero, some err⟩, false, false⟩
  | none =>
  if abort1 then ⟨none, true, false⟩
  else if abort2 then ⟨none, true, true⟩
  else
  match connRead with
  | .error err =>
    if err.isCloseErr then
      ⟨some ⟨ServerConfiguration.zero, some (Error.ErrDisconnected (some
        (Error.Errorf "couldn't read accept-conf message during dial: %s"
          [.err (Error.external err.text)])))⟩, true, true⟩
    else
      ⟨some ⟨ServerConfiguration.zero, some (Error.Errorf "read err: %s" [.str err.text])⟩,
        true, true⟩
  | .ok msg =>
  if abort3 then ⟨none, true, true⟩
  else if msg.MsgType ≠ MsgAcceptConf then
    ⟨some ⟨ServerConfiguration.zero, some (Error.Errorf
      "unexpected message type: %d (expected accept-conf message)"
      [.num msg.MsgType.val])⟩, true, true⟩
  else
  match verifyProtocolVersion msg.ServerConfiguration.MajorProtocolVersion
      msg.ServerConfiguration.MinorProtocolVersion with
  | some err => ⟨some ⟨ServerConfiguration.zero, some err⟩, true, true⟩
  | none =>
  if msg.ServerConfiguration.SubProtocolName ≠ none ∧ options.SubProtocolName = none then
    ⟨some ⟨ServerConfiguration.zero, some (Error.Errorf
      "mismatching sub-protocols (server: %s; client: nil)"
      [.bytes msg.ServerConfiguration.SubProtocolName])⟩, true, true⟩
  else if msg.ServerConfiguration.SubProtocolName = none ∧
      options.SubProtocolName ≠ none then
    ⟨some ⟨ServerConfiguration.zero, some (Error.Errorf
      "mismatching sub-protocols (server: nil; client: %s)"
      [.bytes options.SubProtocolName])⟩, true, true⟩
  else if msg.ServerConfiguration.SubProtocolName ≠ none ∧
      options.SubProtocolName ≠ none ∧
      !bytesEqual msg.ServerConfiguration.SubProtocolName options.SubProtocolName then
    ⟨some ⟨ServerConfiguration.zero, some (Error.Errorf
      "mismatching sub-protocols (server: %s; client: %s)"
      [.bytes msg.ServerConfiguration.SubProtocolName, .bytes options.SubProtocolName])⟩,
      true, true⟩
  else if options.MessageBufferSize ≠ msg.ServerConfiguration.MessageBufferSize then
    ⟨some ⟨ServerConfiguration.zero, some (Error.Errorf
      "mismatching message buffer capacity (server: %d; client: %d)"
      [.num msg.ServerConfiguration.MessageBufferSize, .num options.MessageBufferSize])⟩,
      true, true⟩
  else
    ⟨some ⟨msg.ServerConfiguration, none⟩, false, true⟩

/-- Which case the `select` of `dial` takes. With `resultFirst` the result of
the goroutine is received before the dialing timer fires, so that the goroutine
never finds `abortAwait` set. With `timerFirst` the timer case is taken; the
flags say at which of its loads the goroutine then finds `abortAwait` set. -/
inductive Schedule where
  | resultFirst
  | timerFirst (abort1 abort2 abort3 : Bool)
  deriving DecidableEq, Repr

/-- The method `client.dial` of dial.go: the pair `(srvConf, err)` it returns. A goroutine
that returns without sending leaves the `select` waiting for the timer. -/
def dial (MsgAcceptConf : Fin 256) (options : Options)
    (connDial : Option Error) (connRead : Except SockReadErr Message)
    (sched : Schedule) : ServerConfiguration × Option Error :=
  match sched with
  | .timerFirst _ _ _ => (ServerConfiguration.zero, some (Error.ErrDisconnected none))
  | .resultFirst =>
    match (dialRoutine MsgAcceptConf options connDial connRead false false false).sent with
    | some result => (result.serverConfiguration, result.err)
    | none => (ServerConfiguration.zero, some (Error.ErrDisconnected none))

/-! ## backgroundReconnect.go -/

/-- What one pass through the loop body of `backgroundReconnect` does with the
result of `clt.connect()`. -/
inductive LoopAction where
  /-- The `case nil`: flush the waiters without error, clear `connecting`, return. -/
  | flushSuccess
  /-- The `case wwr.ErrDisconnected`: sleep `ReconnectionInterval`, then try again. -/
  | sleepAndRetry
  /-- The `default` case: flush the waiters with the error, return. -/
  | flushError (err : Error)

/-- The type switch in the loop of `backgroundReconnect`. -/
def reconnectSwitch (err : Option Error) : LoopAction :=
  match err with
  | none => .flushSuccess
  | some (.ErrDisconnected _) => .sleepAndRetry
  | some err => .flushError err

/-- Whether the dynamic type of an error is `wwr.ErrDisconnected`. -/
def Error.isErrDisconnected : Error → Bool
  | .ErrDisconnected _ => true
  | _ => false

/-! ## connection.go -/

/-- Reduction of an integer to the range of a Go `int32` (two's complement
wrap-around). -/
def wrapInt32 (x : Int) : Int := (x + 2147483648) % 4294967296 - 2147483648

/-- A `SessionInfo` attachment, as the list of its fields and their values. -/
abbrev SessionInfo := List (String × String)

/-- The type `Session`: key, creation and last-lookup time, optional info. -/
structure Session where
  Key : String
  Creation : Nat
  LastLookup : Nat
  Info : Option SessionInfo
  deriving DecidableEq, Repr

/-- Modelled from the spec: `NewSession` is not part of the sources; it builds
a session with a freshly generated key whose creation and last-lookup times are
the current time. `key` is the result of the key generator and `now` the
current time. -/
def NewSession (info : Option SessionInfo) (key : String) (now : Nat) : Session :=
  { Key := key, Creation := now, LastLookup := now, Info := info }

/-- A message written to the socket by the connection. -/
inductive Frame where
  | sessionCreated (encodedSessionInfo : Bytes)
  | sessionClosed
  deriving DecidableEq, Repr

/-- Modelled from the spec: the `Socket` of a connection is a collaborator
(transport contract, section 6) whose implementation is not part of the
sources. Its state is what the connection can observe or cause: whether it is
connected, how many times `Close` was called on it, the messages written to it
and its remote address. -/
structure Socket where
  connected : Bool
  closeCalls : Nat
  written : List Frame
  remoteAddr : String
  deriving DecidableEq, Repr

/-- The call `sock.IsConnected()`. -/
def Socket.IsConnected (sock : Socket) : Bool := sock.connected

/-- The call `sock.Close()`. -/
def Socket.Close (sock : Socket) : Socket :=
  { sock with connected := false, closeCalls := sock.closeCalls + 1 }

/-- A call received by the session registry: the key is that of the session of
the calling connection, if it has one. -/
inductive RegistryCall where
  | register (key : Option String)
  | deregister (key : Option String) (destroy : Bool)
  deriving DecidableEq, Repr

/-- Modelled from the spec: the server instance a connection refers to. The
session registry and the session manager are collaborators whose code is not
part of the sources; they are represented by the calls they have received. -/
structure server where
  sessionsEnabled : Bool
  sessionRegistry : List RegistryCall
  onSessionCreatedCalls : Nat
  errorLog : List (String × List FmtArg)

/-- The type `ConnectionOptions`, as far as `newConnection` reads it. -/
structure ConnectionOptions where
  ConcurrencyLimit : Nat
  deriving DecidableEq, Repr

/-- The type `ClientInfo`. -/
structure ClientInfo where
  ConnectionTime : Nat
  UserAgent : Bytes
  RemoteAddr : Option String
  deriving DecidableEq, Repr

/-- The type `connection`. The two locks are not represented: every embedded
method is one atomic step on the state. The semaphore `handlerSlots` is
determined by `options.ConcurrencyLimit` and is touched by none of the
embedded methods. A nil socket is `none`. -/
structure connection where
  options : ConnectionOptions
  isActive : Bool
  tasks : Int
  srv : server
  sock : Option Socket
  session : Option Session
  info : ClientInfo

/-- A run-time panic of the Go program. -/
inductive Panic where
  /-- A method was called on a nil interface value. -/
  | nilDereference
  deriving DecidableEq, Repr

/-- The function `newConnection` of connection.go; `now` is the result of `time.Now()`. -/
def newConnection (socket : Option Socket) (userAgent : Bytes) (srv : server)
    (options : ConnectionOptions) (now : Nat) : connection :=
  let isActive := socket.isSome
  let remoteAddr := socket.map (fun s => s.remoteAddr)
  { options := options
    isActive := isActive
    tasks := 0
    srv := srv
    sock := socket
    session := none
    info := { ConnectionTime := now, UserAgent := userAgent, RemoteAddr := remoteAddr } }

/-- The method `connection.registerTask`: increment the task counter. -/
def connection.registerTask (con : connection) : connection :=
  { con with tasks := wrapInt32 (con.tasks + 1) }

/-- The method `connection.unlink`: deregister from the session registry without
destroying, clear the session, close the socket. -/
def connection.unlink (con : connection) : Except Panic connection :=
  let con := { con with srv := { con.srv with sessionRegistry :=
    con.srv.sessionRegistry ++ [RegistryCall.deregister (con.session.map (fun s : Session => s.Key)) false] } }
  let con := { con with session := none }
  match con.sock with
  | none => .error .nilDereference
  | some sock => .ok { con with sock := some sock.Close }

/-- The method `connection.deregisterTask`: decrement the task counter and
unlink when the connection is inactive and the counter is below 1. -/
def connection.deregisterTask (con : connection) : Except Panic connection :=
  let con := { con with tasks := wrapInt32 (con.tasks - 1) }
  let unlink := !con.isActive && decide (con.tasks < 1)
  if unlink then con.unlink else .ok con

/-- The method `connection.Close`: nothing on an inactive connection; otherwise
mark it inactive and unlink when the task counter is below 1. -/
def connection.Close (con : connection) : Except Panic connection :=
  if !con.isActive then .ok con
  else
    let con := { con with isActive := false }
    let unlink := decide (con.tasks < 1)
    if unlink then con.unlink else .ok con

/-- The results of the calls that `CreateSession` makes into code outside the
sources: the generated session key, the current time, `json.Marshal` of the
session, `con.sock.GetWriter()`, `message.WriteMsgSessionCreated` and the
`OnSessionCreated` hook. -/
structure CreateSessionEnv where
  generatedKey : String
  now : Nat
  marshal : Session → Except Error Bytes
  getWriter : Option Error
  writeMsg : Option Error
  onSessionCreated : Option Error

/-- The method `connection.notifySessionCreated`: encode the session, get a
writer, write the session-created message. -/
def connection.notifySessionCreated (con : connection) (newSession : Session)
    (env : CreateSessionEnv) : Except Panic (connection × Option Error) :=
  match env.marshal newSession with
  | .error err =>
    .ok (con, some (Error.Errorf "Couldn't marshal session object: %s" [.err err]))
  | .ok encodedSessionInfo =>
    match con.sock with
    | none => .error .nilDereference
    | some sock =>
      match env.getWriter with
      | some err => .ok (con, some err)
      | none =>
        match env.writeMsg with
        | some err => .ok (con, some err)
        | none =>
          .ok ({ con with sock := some { sock with
            written := sock.written ++ [.sessionCreated encodedSessionInfo] } }, none)

/-- The method `connection.CreateSession`. -/
def connection.CreateSession (con : connection) (attachment : Option SessionInfo)
    (env : CreateSessionEnv) : Except Panic (connection × Option Error) :=
  if !con.srv.sessionsEnabled then .ok (con, some Error.SessionsDisabledErr)
  else
  match con.sock with
  | none => .error .nilDereference
  | some sock =>
  if !sock.IsConnected then
    .ok (con, some (Error.DisconnectedErr (some
      (Error.Errorf "Can't create session on disconnected connection" []))))
  else
  match con.session with
  | some session =>
    .ok (con, some (Error.Errorf "Another session (%s) on this client is already active"
      [.str session.Key]))
  | none =>
  let newSession := NewSession attachment env.generatedKey env.now
  match con.notifySessionCreated newSession env with
  | .error p => .error p
  | .ok (con, some err) =>
    .ok (con, some (Error.Errorf "Couldn't notify client about the session creation: %s"
      [.err err]))
  | .ok (con, none) =>
    let con := { con with session := some newSession }
    let con := { con with srv := { con.srv with sessionRegistry :=
      con.srv.sessionRegistry ++ [RegistryCall.register (con.session.map (fun s : Session => s.Key))] } }
    let con := { con with srv := { con.srv with
      onSessionCreatedCalls := con.srv.onSessionCreatedCalls + 1 } }
    match env.onSessionCreated with
    | some err =>
      .ok ({ con with srv := { con.srv with errorLog :=
        con.srv.errorLog ++ [("OnSessionCreated hook failed: %s", [.err err])] } }, none)
    | none => .ok (con, none)

/-- The method `connection.notifySessionClosed`: get a writer and write the
session-closed message. `getWriter` and `writeMsg` are the errors returned by
`con.sock.GetWriter()` and `message.WriteMsgSessionClosed`. -/
def connection.notifySessionClosed (con : connection) (getWriter writeMsg : Option Error) :
    Except Panic (connection × Option Error) :=
  match con.sock with
  | none => .error .nilDereference
  | some sock =>
    match getWriter with
    | some err => .ok (con, some err)
    | none =>
      match writeMsg with
      | some err => .ok (con, some err)
      | none =>
        .ok ({ con with sock := some { sock with
          written := sock.written ++ [.sessionClosed] } }, none)

/-- The method `connection.CloseSession`. -/
def connection.CloseSession (con : connection) (getWriter writeMsg : Option Error) :
    Except Panic (connection × Option Error) :=
  if !con.srv.sessionsEnabled then .ok (con, some Error.SessionsDisabledErr)
  else
  match con.session with
  | none => .ok (con, none)
  | some _ =>
    let con := { con with srv := { con.srv with sessionRegistry :=
      con.srv.sessionRegistry ++
        [RegistryCall.deregister (con.session.map (fun s : Session => s.Key)) true] } }
    let con := { con with session := none }
    con.notifySessionClosed getWriter writeMsg

/-! ## Sequences of calls on a connection -/

/-- The three methods that read or write `isActive` and `tasks`. -/
inductive Call where
  | registerTask
  | deregisterTask
  | Close
  deriving DecidableEq, Repr

/-- One call, executed atomically on the state. -/
def step (con : connection) : Call → Except Panic connection
  | .registerTask => .ok con.registerTask
  | .deregisterTask => con.deregisterTask
  | .Close => con.Close

/-- The state after a sequence of calls. -/
def run : connection → List Call → Except Panic connection
  | con, [] => .ok con
  | con, call :: calls =>
    match step con call with
    | .ok con' => run con' calls
    | .error p => .error p

/-- The states reached by a sequence of calls, the initial one included, up to
the first panic. -/
def trace : connection → List Call → List connection
  | con, [] => [con]
  | con, call :: calls =>
    con :: (match step con call with
      | .ok con' => trace con' calls
      | .error _ => [])

/-- The number of times the socket of the connection has been closed; `unlink`
is the only method that closes it. -/
def connection.unlinks (con : connection) : Nat :=
  match con.sock with
  | some sock => sock.closeCalls
  | none => 0

/-- Every `deregisterTask` of the sequence answers an earlier `registerTask`
that is still outstanding; `outstanding` is the number of registered tasks at
the start. -/
def bracketed : Nat → List Call → Bool
  | _, [] => true
  | outstanding, .registerTask :: calls => bracketed (outstanding + 1) calls
  | 0, .deregisterTask :: _ => false
  | outstanding + 1, .deregisterTask :: calls => bracketed outstanding calls
  | outstanding, .Close :: calls => bracketed outstanding calls

/-- No `registerTask` is called on the connection in a state where it is
inactive and has no task left. -/
def registersWhileLive : connection → List Call → Bool
  | _, [] => true
  | con, call :: calls =>
    !(!con.isActive && decide (con.tasks = 0) && decide (call = .registerTask)) &&
      (match step con call with
        | .ok con' => registersWhileLive con' calls
        | .error _ => true)

/-! ## The client: newClient.go, backgroundReconnect.go, tryAutoconnect.go -/

/-- Modelled from the spec: the three autoconnect states (section 4.5); the
declaration of `autoconnectStatus` and of its constants is not part of the
sources. -/
inductive autoconnectStatus where
  | autoconnectDisabled
  | autoconnectDeactivated
  | autoconnectEnabled
  deriving DecidableEq, Repr

/-- Modelled from the spec: the client connection state (section 3); the
declaration of `Status` and of its constants is not part of the sources. -/
inductive Status where
  | StatusDisconnected
  | StatusConnecting
  | StatusConnected
  deriving DecidableEq, Repr

/-- The payload encodings (section 3). -/
inductive PayloadEncoding where
  | Binary
  | Utf8
  | Utf16
  deriving DecidableEq, Repr

/-- The type `Payload`: encoding and data. -/
structure Payload where
  Encoding : PayloadEncoding
  Data : Bytes
  deriving DecidableEq, Repr

/-- A request identifier, `[8]byte` in the sources; it is only compared and
passed on. -/
abbrev Identifier := List (Fin 256)

/-- The fields of `message.Message` that `handleMessage` reads. -/
structure ReceivedMessage where
  MsgType : Fin 256
  MsgIdentifier : Identifier
  MsgName : Bytes
  MsgPayload : Payload
  deriving DecidableEq, Repr

/-- What the client does to its collaborators (connection, request manager,
heartbeat, user-space hooks, loggers, the waiters of the reconnection loop) and
to the buffer of the message it handles, in the order in which it happens. -/
inductive ClientEvent where
  /-- The reconnection loop calls `clt.connect()`. -/
  | connect
  /-- The call `time.Sleep(clt.options.ReconnectionInterval)`. -/
  | sleep (interval : Nat)
  /-- The call `clt.backReconn.flush(err)`. -/
  | flush (err : Option Error)
  /-- The call `clt.requestManager.Create()`, with the identifier it returned. -/
  | Create (identifier : Identifier)
  /-- The call `clt.requestManager.Fulfill(msg)`. -/
  | Fulfill (msg : ReceivedMessage)
  /-- The call `clt.requestManager.Fail(identifier, err)`. -/
  | Fail (identifier : Identifier) (err : Error)
  /-- The call `clt.conn.GetWriter()`. -/
  | GetWriter
  /-- The call `message.WriteMsgRequest`. -/
  | WriteMsgRequest (identifier : Identifier) (name : Bytes) (encoding : PayloadEncoding)
      (data : Bytes)
  /-- The call `clt.heartbeat.reset()`. -/
  | heartbeatReset
  /-- The call `request.AwaitReply(ctx)`. -/
  | AwaitReply (identifier : Identifier)
  /-- The call `clt.impl.OnSignal(msg)`. -/
  | OnSignal (msg : ReceivedMessage)
  /-- The call `clt.impl.OnSessionCreated(session)`. -/
  | OnSessionCreated (session : Session)
  /-- The call `clt.impl.OnSessionClosed()`. -/
  | OnSessionClosed
  /-- The call `msg.Close()`, which releases the message buffer. -/
  | msgClose
  /-- The call `clt.options.WarnLog.Printf`. -/
  | WarnLog (format : String) (args : List FmtArg)
  /-- The call `clt.options.ErrorLog.Printf`. -/
  | ErrorLog (format : String) (args : List FmtArg)

/-- The fields of the type `client` that the embedded methods read or write.
The locks are not represented: every embedded method is one atomic step.
`loops` counts the goroutines started by `backgroundReconnect` that have not
returned yet, and `events` records the calls made so far. -/
structure client where
  autoconnect : autoconnectStatus
  status : Status
  session : Option Session
  connecting : Bool
  loops : Nat
  events : List ClientEvent

/-- The client built by `NewClient` of newClient.go when it succeeds;
`autoconnectOff` says whether `options.Autoconnect == webwire.Disabled`. -/
def NewClient (autoconnectOff : Bool) : client :=
  let autoconnect := autoconnectStatus.autoconnectDeactivated
  let autoconnect := if autoconnectOff then autoconnectStatus.autoconnectDisabled else autoconnect
  { autoconnect := autoconnect
    status := .StatusDisconnected
    session := none
    connecting := false
    loops := 0
    events := [] }

/-- Record one event. -/
def client.emit (clt : client) (event : ClientEvent) : client :=
  { clt with events := clt.events ++ [event] }

/-- The part of `backgroundReconnect` that runs in the calling goroutine: return
when `connecting` is set, otherwise set it and start the loop goroutine. -/
def client.backgroundReconnect (clt : client) : client :=
  if clt.connecting then clt
  else { clt with connecting := true, loops := clt.loops + 1 }

/-- One pass through the loop of the goroutine started by `backgroundReconnect`;
`interval` is `clt.options.ReconnectionInterval` and `connectResult` the error
returned by `clt.connect()`. The second component says whether the loop goes on;
when it does not, the goroutine returns. -/
def client.reconnectIteration (clt : client) (interval : Nat) (connectResult : Option Error) :
    client × Bool :=
  let clt := clt.emit .connect
  match reconnectSwitch connectResult with
  | .flushSuccess =>
    let clt := clt.emit (.flush none)
    let clt := { clt with connecting := false }
    ({ clt with loops := clt.loops - 1 }, false)
  | .sleepAndRetry => (clt.emit (.sleep interval), true)
  | .flushError err =>
    let clt := clt.emit (.flush (some err))
    ({ clt with loops := clt.loops - 1 }, false)

/-- The loop of the goroutine started by `backgroundReconnect`, run on the
successive results of `clt.connect()` until it returns or the results are
used up. -/
def client.reconnectLoop (clt : client) (interval : Nat) : List (Option Error) → client
  | [] => clt
  | connectResult :: rest =>
    match clt.reconnectIteration interval connectResult with
    | (clt', true) => client.reconnectLoop clt' interval rest
    | (clt', false) => clt'

/-- A step of the reconnection machinery of one client: a call of
`backgroundReconnect`, or `clt.connect()` returning in a running loop. -/
inductive ReconnectStep where
  | backgroundReconnect
  | connectReturns (connectResult : Option Error)

/-- The effect of one step; a result of `connect` is only taken when a loop is
running. -/
def client.reconnectStep (clt : client) (interval : Nat) : ReconnectStep → client
  | .backgroundReconnect => clt.backgroundReconnect
  | .connectReturns connectResult =>
    if clt.loops = 0 then clt else (clt.reconnectIteration interval connectResult).1

/-- The call `atomic.CompareAndSwapInt32(&clt.autoconnect, old, new)`. -/
def compareAndSwap (current old new : autoconnectStatus) : autoconnectStatus :=
  if current = old then new else current

/-- What `tryAutoconnect` returns and does: the client afterwards, the error,
and whether it called `backgroundReconnect` and `backReconn.await`. -/
structure TryAutoconnectResult where
  clt : client
  err : Option Error
  calledBackgroundReconnect : Bool
  awaited : Bool

/-- The method `client.tryAutoconnect` of tryAutoconnect.go; `await` is the result
of `clt.backReconn.await(ctx, ctxHasDeadline)`. -/
def client.tryAutoconnect (clt : client) (await : Option Error) : TryAutoconnectResult :=
  let swapped :=
    compareAndSwap clt.autoconnect .autoconnectDeactivated .autoconnectEnabled
  let clt := { clt with autoconnect := swapped }
  if clt.status = .StatusConnected then
    { clt := clt, err := none, calledBackgroundReconnect := false, awaited := false }
  else if clt.autoconnect ≠ .autoconnectEnabled then
    { clt := clt, err := some (Error.ErrDisconnected none),
      calledBackgroundReconnect := false, awaited := false }
  else
    let clt := clt.backgroundReconnect
    { clt := clt, err := await, calledBackgroundReconnect := true, awaited := true }

/-! ## handle.go -/

/-- The constants of package `message` with which `handleMessage` compares the
type of a message; their values are not part of the sources. -/
structure MessageTypes where
  MsgReplyBinary : Fin 256
  MsgReplyUtf8 : Fin 256
  MsgReplyUtf16 : Fin 256
  MsgReplyShutdown : Fin 256
  MsgReplySessionNotFound : Fin 256
  MsgReplyMaxSessConnsReached : Fin 256
  MsgReplySessionsDisabled : Fin 256
  MsgReplyError : Fin 256
  MsgReplyInternalError : Fin 256
  MsgSignalBinary : Fin 256
  MsgSignalUtf8 : Fin 256
  MsgSignalUtf16 : Fin 256
  MsgNotifySessionCreated : Fin 256
  MsgNotifySessionClosed : Fin 256
  deriving DecidableEq, Repr

/-- The constants are pairwise different: Go rejects a `switch` that lists the
same constant in two cases. -/
def MessageTypes.distinct (T : MessageTypes) : Prop :=
  [T.MsgReplyBinary, T.MsgReplyUtf8, T.MsgReplyUtf16, T.MsgReplyShutdown,
    T.MsgReplySessionNotFound, T.MsgReplyMaxSessConnsReached, T.MsgReplySessionsDisabled,
    T.MsgReplyError, T.MsgReplyInternalError, T.MsgSignalBinary, T.MsgSignalUtf8,
    T.MsgSignalUtf16, T.MsgNotifySessionCreated, T.MsgNotifySessionClosed].Nodup

/-- Whether the constants are pairwise different can be computed. -/
instance (T : MessageTypes) : Decidable T.distinct := by
  unfold MessageTypes.distinct
  infer_instance

/-- The value carried by a Go `panic`: a value that implements `error`, or any
other value, known by its `%v` rendering. -/
inductive PanicValue where
  | error (err : Error)
  | value (text : String)

/-- The type `webwire.JSONEncodedSession`. -/
structure JSONEncodedSession where
  Key : String
  Creation : Nat
  LastLookup : Nat
  Info : Option (List (String × String))
  deriving DecidableEq, Repr

/-- The results of the calls that `handleMessage` makes into code outside the
sources: `json.Unmarshal` of the payload, the configured `SessionInfoParser`
(nil or a function), and for each user-space hook whether it returns (`none`)
or panics with a value. -/
structure HandleEnv where
  unmarshal : Bytes → Except Error JSONEncodedSession
  SessionInfoParser : Option (List (String × String) → Option SessionInfo)
  OnSignal : ReceivedMessage → Option PanicValue
  OnSessionCreated : Session → Option PanicValue
  OnSessionClosed : Option PanicValue

/-- The conversion `string(b)` of a byte slice: its bytes, none for nil. -/
def goString (b : Bytes) : List (Fin 256) := b.getD []

/-- The builtin `len(b)` of a byte slice. -/
def goLen (b : Bytes) : Nat := (b.getD []).length

/-- The method `client.handleSessionCreated`. The second component is the value
of the panic when the `OnSessionCreated` hook panics. -/
def client.handleSessionCreated (clt : client) (env : HandleEnv) (msgPayload : Payload) :
    client × Option PanicValue :=
  match env.unmarshal msgPayload.Data with
  | .error err =>
    (clt.emit (.ErrorLog "Failed unmarshalling session object: %s" [.err err]), none)
  | .ok encoded =>
    let parsedSessInfo : Option SessionInfo :=
      match encoded.Info, env.SessionInfoParser with
      | some info, some parse => parse info
      | _, _ => none
    let session : Session :=
      { Key := encoded.Key, Creation := encoded.Creation, LastLookup := 0,
        Info := parsedSessInfo }
    let clt := { clt with session := some session }
    let clt := clt.emit (.OnSessionCreated session)
    (clt, env.OnSessionCreated session)

/-- The method `client.handleSessionClosed`. The second component is the value of
the panic when the `OnSessionClosed` hook panics. -/
def client.handleSessionClosed (clt : client) (env : HandleEnv) : client × Option PanicValue :=
  let clt := { clt with session := none }
  let clt := clt.emit .OnSessionClosed
  (clt, env.OnSessionClosed)

/-- The method `client.handleInternalError`. -/
def client.handleInternalError (clt : client) (reqIdent : Identifier) : client :=
  clt.emit (.Fail reqIdent Error.ErrInternal)

/-- The method `client.handleReplyShutdown`. -/
def client.handleReplyShutdown (clt : client) (reqIdent : Identifier) : client :=
  clt.emit (.Fail reqIdent Error.ErrServerShutdown)

/-- The method `client.handleSessionNotFound`. -/
def client.handleSessionNotFound (clt : client) (reqIdent : Identifier) : client :=
  clt.emit (.Fail reqIdent Error.ErrSessionNotFound)

/-- The method `client.handleMaxSessConnsReached`. -/
def client.handleMaxSessConnsReached (clt : client) (reqIdent : Identifier) : client :=
  clt.emit (.Fail reqIdent Error.ErrMaxSessConnsReached)

/-- The method `client.handleSessionsDisabled`. -/
def client.handleSessionsDisabled (clt : client) (reqIdent : Identifier) : client :=
  clt.emit (.Fail reqIdent Error.ErrSessionsDisabled)

/-- The `switch` of `client.handleMessage`, up to `return nil` or to the panic
of a user-space hook, whose value is the second component. A panic leaves the
statements after the hook call unexecuted. The three signal cases, chained by
`fallthrough`, share one body. -/
def client.handleMessageBody (clt : client) (env : HandleEnv) (T : MessageTypes)
    (msg : ReceivedMessage) : client × Option PanicValue :=
  if msg.MsgType = T.MsgReplyBinary then (clt.emit (.Fulfill msg), none)
  else if msg.MsgType = T.MsgReplyUtf8 then (clt.emit (.Fulfill msg), none)
  else if msg.MsgType = T.MsgReplyUtf16 then (clt.emit (.Fulfill msg), none)
  else if msg.MsgType = T.MsgReplyShutdown then
    ((clt.handleReplyShutdown msg.MsgIdentifier).emit .msgClose, none)
  else if msg.MsgType = T.MsgReplySessionNotFound then
    ((clt.handleSessionNotFound msg.MsgIdentifier).emit .msgClose, none)
  else if msg.MsgType = T.MsgReplyMaxSessConnsReached then
    ((clt.handleMaxSessConnsReached msg.MsgIdentifier).emit .msgClose, none)
  else if msg.MsgType = T.MsgReplySessionsDisabled then
    ((clt.handleSessionsDisabled msg.MsgIdentifier).emit .msgClose, none)
  else if msg.MsgType = T.MsgReplyError then
    ((clt.emit (.Fail msg.MsgIdentifier
      (Error.ErrRequest (goString msg.MsgName) (goString msg.MsgPayload.Data)))).emit
        .msgClose, none)
  else if msg.MsgType = T.MsgReplyInternalError then
    ((clt.handleInternalError msg.MsgIdentifier).emit .msgClose, none)
  else if msg.MsgType = T.MsgSignalBinary ∨ msg.MsgType = T.MsgSignalUtf8 ∨
      msg.MsgType = T.MsgSignalUtf16 then
    let clt := clt.emit (.OnSignal msg)
    match env.OnSignal msg with
    | some panicValue => (clt, some panicValue)
    | none => (clt.emit .msgClose, none)
  else if msg.MsgType = T.MsgNotifySessionCreated then
    match clt.handleSessionCreated env msg.MsgPayload with
    | (clt, some panicValue) => (clt, some panicValue)
    | (clt, none) => (clt.emit .msgClose, none)
  else if msg.MsgType = T.MsgNotifySessionClosed then
    let clt := clt.emit .msgClose
    clt.handleSessionClosed env
  else
    let clt := clt.emit .msgClose
    (clt.emit (.WarnLog "Strange message type received: '%d'\n" [.num msg.MsgType.val]), none)

/-- The deferred function of `client.handleMessage`, for a recovered value that
is not nil: the error it assigns to the result. -/
def recoverPanic : PanicValue → Error
  | .error r => r
  | .value recvErr => Error.Errorf "unexpected panic: %v" [.str recvErr]

/-- The method `client.handleMessage`: the `switch`, and the deferred function
that recovers a panic into the returned error. -/
def client.handleMessage (clt : client) (env : HandleEnv) (T : MessageTypes)
    (msg : ReceivedMessage) : client × Option Error :=
  match clt.handleMessageBody env T msg with
  | (clt, none) => (clt, none)
  | (clt, some recvErr) => (clt, some (recoverPanic recvErr))

/-- Whether an event is the release of the message buffer. -/
def ClientEvent.isMsgClose : ClientEvent → Bool
  | .msgClose => true
  | _ => false

/-- The number of releases of the message buffer among some events. -/
def releases (events : List ClientEvent) : Nat :=
  (events.filter ClientEvent.isMsgClose).length

/-- The requests failed by some events, in order: identifier and error of every
`requestManager.Fail` call. -/
def failedRequests : List ClientEvent → List (Identifier × Error)
  | [] => []
  | .Fail identifier err :: events => (identifier, err) :: failedRequests events
  | _ :: events => failedRequests events

/-! ## sendRequest.go -/

/-- The results of the calls that `sendRequest` makes into code outside the
sources: the identifier of the request returned by `requestManager.Create()`,
the errors of `clt.conn.GetWriter()` and of `message.WriteMsgRequest`, and the
result of `request.AwaitReply(ctx)`. -/
structure SendRequestEnv where
  identifier : Identifier
  getWriter : Option Error
  writeMsg : Option Error
  awaitReply : Option Payload × Option Error

/-- The method `client.sendRequest`. A reply is represented by its payload. As in
the source, the body does not use `messageType`. -/
def client.sendRequest (clt : client) (env : SendRequestEnv) (messageType : Fin 256)
    (name : Bytes) (payload : Payload) : client × Option Payload × Option Error :=
  if goLen name < 1 ∧ goLen payload.Data < 1 then
    (clt, none, some (Error.ErrProtocol (some (Error.Errorf
      ("Invalid request, request message requires " ++
        "either a name, a payload or both but is missing both") []))))
  else
    let clt := clt.emit (.Create env.identifier)
    let clt := clt.emit .GetWriter
    match env.getWriter with
    | some err => (clt, none, some err)
    | none =>
      let clt := clt.emit
        (.WriteMsgRequest env.identifier name payload.Encoding payload.Data)
      match env.writeMsg with
      | some err =>
        (clt.emit (.Fail env.identifier err), none, some (Error.ErrTransmission (some err)))
      | none =>
        let clt := clt.emit .heartbeatReset
        let clt := clt.emit (.AwaitReply env.identifier)
        (clt, env.awaitReply)

/-- The events of `n` failed attempts of the reconnection loop: each is a call
of `connect` followed by a sleep. -/
def retryEvents (interval : Nat) : Nat → List ClientEvent
  | 0 => []
  | n + 1 => .connect :: .sleep interval :: retryEvents interval n

/-! ## Example values -/

/-- A freshly accepted, connected socket. -/
def exampleSocket : Socket :=
  { connected := true, closeCalls := 0, written := [], remoteAddr := "198.51.100.7:4000" }

/-- A server with sessions enabled that has not been called yet. -/
def exampleServer : server :=
  { sessionsEnabled := true, sessionRegistry := [], onSessionCreatedCalls := 0, errorLog := [] }

/-- The connection created by `newConnection` for `exampleSocket`. -/
def exampleConnection : connection :=
  newConnection (some exampleSocket) none exampleServer { ConcurrencyLimit := 1 } 0

/-- Collaborator results with which session creation succeeds: the encoder
returns three bytes, the writer is available, the write and the hook succeed. -/
def exampleEnv : CreateSessionEnv :=
  { generatedKey := "k1", now := 7, marshal := fun _ => .ok (some [123, 125, 10]),
    getWriter := none, writeMsg := none, onSessionCreated := none }

/-- One assignment of pairwise different values to the message type
constants. -/
def exampleMessageTypes : MessageTypes :=
  { MsgReplyBinary := 191, MsgReplyUtf8 := 192, MsgReplyUtf16 := 193,
    MsgReplyShutdown := 1, MsgReplySessionNotFound := 3, MsgReplyMaxSessConnsReached := 4,
    MsgReplySessionsDisabled := 5, MsgReplyError := 0, MsgReplyInternalError := 2,
    MsgSignalBinary := 63, MsgSignalUtf8 := 64, MsgSignalUtf16 := 65,
    MsgNotifySessionCreated := 21, MsgNotifySessionClosed := 22 }

/-- Collaborator results for `handleMessage` with which nothing fails: the
payload decodes to a session without info, no parser is configured and every
hook returns. -/
def exampleHandleEnv : HandleEnv :=
  { unmarshal := fun _ => .ok { Key := "k1", Creation := 7, LastLookup := 7, Info := none },
    SessionInfoParser := none,
    OnSignal := fun _ => none,
    OnSessionCreated := fun _ => none,
    OnSessionClosed := none }

/-- A binary signal named "a" with the two payload bytes "hi". -/
def exampleSignal : ReceivedMessage :=
  { MsgType := 63, MsgIdentifier := [0, 0, 0, 0, 0, 0, 0, 0], MsgName := some [97],
    MsgPayload := { Encoding := .Binary, Data := some [104, 105] } }

/-- An error reply for the request with identifier 7, with code "E1" and
message "no". -/
def exampleErrorReply : ReceivedMessage :=
  { MsgType := 0, MsgIdentifier := [0, 0, 0, 0, 0, 0, 0, 7], MsgName := some [69, 49],
    MsgPayload := { Encoding := .Utf8, Data := some [110, 111] } }

/-- Collaborator results for `sendRequest` with which nothing fails: the request
created has identifier 1 and the reply carries one byte. -/
def exampleSendEnv : SendRequestEnv :=
  { identifier := [0, 0, 0, 0, 0, 0, 0, 1], getWriter := none, writeMsg := none,
    awaitReply := (some { Encoding := .Binary, Data := some [1] }, none) }

/-- The example connection with a session of key "k1" attached. -/
def exampleSessionConnection : connection :=
  { exampleConnection with
    session := some { Key := "k1", Creation := 7, LastLookup := 7, Info := none } }

/-! ## Properties -/

theorem goCopy_goMake (src : List (Fin 256)) : goCopy (goMake src.length) src = src := by
  simp [goCopy, goMake]

theorem copyBytes_eq (b : Bytes) : copyBytes b = b := by
  cases b with
  | none => rfl
  | some src => simp [copyBytes, goCopy_goMake]

theorem wrapInt32_eq {x : Int} (h1 : -2147483648 ≤ x) (h2 : x < 2147483648) :
    wrapInt32 x = x := by
  unfold wrapInt32
  omega

/-- A call on a connection that has a socket does not panic. -/
theorem step_total (con : connection) (call : Call) (hs : ∃ s, con.sock = some s) :
    ∃ con', step con call = .ok con' := by
  obtain ⟨s, hs⟩ := hs
  cases call with
  | registerTask => exact ⟨_, rfl⟩
  | deregisterTask =>
    simp only [step, connection.deregisterTask, connection.unlink, hs]
    split <;> exact ⟨_, rfl⟩
  | Close =>
    simp only [step, connection.Close, connection.unlink, hs]
    split
    · exact ⟨_, rfl⟩
    · split <;> exact ⟨_, rfl⟩

/-- The effect of one call on a connection that has a socket and whose counter
is in a range where it does not wrap around. -/
theorem step_effect (con con' : connection) (call : Call) (h : step con call = .ok con')
    (hs : ∃ s, con.sock = some s)
    (h0 : 0 ≤ con.tasks) (h1 : con.tasks < 2147483648)
    (hr : call = .registerTask → con.tasks < 2147483647)
    (hd : call = .deregisterTask → 1 ≤ con.tasks) :
    (∃ s', con'.sock = some s') ∧
      ((call = .registerTask ∧ con'.tasks = con.tasks + 1 ∧ con'.isActive = con.isActive ∧
          con'.unlinks = con.unlinks) ∨
       (call = .deregisterTask ∧ con'.tasks = con.tasks - 1 ∧ con'.isActive = con.isActive ∧
          ((con.isActive = false ∧ con.tasks = 1 ∧ con'.unlinks = con.unlinks + 1) ∨
            (¬ (con.isActive = false ∧ con.tasks = 1) ∧ con'.unlinks = con.unlinks))) ∨
       (call = .Close ∧ con'.tasks = con.tasks ∧ con'.isActive = false ∧
          ((con.isActive = true ∧ con.tasks = 0 ∧ con'.unlinks = con.unlinks + 1) ∨
            (¬ (con.isActive = true ∧ con.tasks = 0) ∧ con'.unlinks = con.unlinks)))) := by
  obtain ⟨s, hs⟩ := hs
  cases call with
  | registerTask =>
    simp only [step, Except.ok.injEq] at h
    subst h
    have hr := hr rfl
    refine ⟨⟨s, hs⟩, Or.inl ⟨rfl, ?_, rfl, ?_⟩⟩
    · exact wrapInt32_eq (by omega) (by omega)
    · simp [connection.unlinks, connection.registerTask]
  | deregisterTask =>
    have hd := hd rfl
    have hw : wrapInt32 (con.tasks - 1) = con.tasks - 1 := wrapInt32_eq (by omega) (by omega)
    simp only [step, connection.deregisterTask, connection.unlink, hs, hw] at h
    split at h
    · rename_i hc
      simp only [Except.ok.injEq] at h
      subst h
      have hu : con.isActive = false ∧ con.tasks = 1 := by
        simp at hc
        exact ⟨hc.1, by omega⟩
      refine ⟨⟨s.Close, rfl⟩, Or.inr (Or.inl ⟨rfl, rfl, rfl, Or.inl ⟨hu.1, hu.2, ?_⟩⟩)⟩
      simp [connection.unlinks, hs, Socket.Close]
    · rename_i hc
      simp only [Except.ok.injEq] at h
      subst h
      have hu : ¬ (con.isActive = false ∧ con.tasks = 1) := by
        intro hu
        apply hc
        simp [hu.1, hu.2]
      refine ⟨⟨s, rfl⟩, Or.inr (Or.inl ⟨rfl, rfl, rfl, Or.inr ⟨hu, ?_⟩⟩)⟩
      simp [connection.unlinks, hs]
  | Close =>
    simp only [step, connection.Close, connection.unlink, hs] at h
    split at h
    · rename_i ha
      simp only [Except.ok.injEq] at h
      subst h
      simp at ha
      exact ⟨⟨s, hs⟩, Or.inr (Or.inr ⟨rfl, rfl, ha, Or.inr ⟨by simp [ha], rfl⟩⟩)⟩
    · rename_i ha
      simp at ha
      split at h
      · rename_i hc
        simp only [Except.ok.injEq] at h
        subst h
        have ht : con.tasks = 0 := by
          simp at hc
          omega
        refine ⟨⟨s.Close, rfl⟩, Or.inr (Or.inr ⟨rfl, rfl, rfl, Or.inl ⟨ha, ht, ?_⟩⟩)⟩
        simp [connection.unlinks, hs, Socket.Close]
      · rename_i hc
        simp only [Except.ok.injEq] at h
        subst h
        have ht : ¬ con.tasks = 0 := by
          intro ht
          apply hc
          simp [ht]
        refine ⟨⟨s, rfl⟩, Or.inr (Or.inr ⟨rfl, rfl, rfl, Or.inr ⟨by simp [ht], ?_⟩⟩)⟩
        simp [connection.unlinks, hs]


/-- One call of a bracketed sequence: the call does not panic, the counter stays
a natural number that bounds the rest of the sequence, and an unlink is
performed exactly when the call leaves the connection inactive without tasks
and the connection was not in that state before. -/
theorem step_bracketed (con : connection) (n : Nat) (call : Call) (calls : List Call)
    (hs : ∃ s, con.sock = some s) (ht : con.tasks = n)
    (hl : n + (call :: calls).length < 2147483648)
    (hb : bracketed n (call :: calls) = true) :
    ∃ (con' : connection) (n' : Nat), step con call = .ok con' ∧
      (∃ s', con'.sock = some s') ∧ con'.tasks = (n' : Int) ∧
      n' + calls.length < 2147483648 ∧ bracketed n' calls = true ∧
      con.unlinks ≤ con'.unlinks ∧ con'.unlinks ≤ con.unlinks + 1 ∧
      (con.unlinks < con'.unlinks → con'.isActive = false ∧ con'.tasks = 0) ∧
      (con'.isActive = false ∧ con'.tasks = 0 →
        con.unlinks < con'.unlinks ∨
          (con.isActive = false ∧ con.tasks = 0 ∧ call = .Close)) ∧
      (con.isActive = false ∧ con.tasks = 0 → call ≠ .registerTask →
        con'.unlinks = con.unlinks ∧ con'.isActive = false ∧ con'.tasks = 0) := by
  obtain ⟨con', hstep⟩ := step_total con call hs
  have hd : call = .deregisterTask → 1 ≤ con.tasks := by
    intro hc
    subst hc
    cases n with
    | zero => simp [bracketed] at hb
    | succ m =>
      rw [ht]
      push_cast
      omega
  simp only [List.length_cons] at hl
  have heff := step_effect con con' call hstep hs (by omega) (by omega) (fun _ => by omega) hd
  obtain ⟨hs', heff⟩ := heff
  rcases heff with ⟨hc, h1, h2, h3⟩ | ⟨hc, h1, h2, h3⟩ | ⟨hc, h1, h2, h3⟩
  · subst hc
    refine ⟨con', n + 1, hstep, hs', by rw [h1, ht]; push_cast; rfl, by omega, ?_,
      by omega, by omega, by omega, ?_, ?_⟩
    · simpa [bracketed] using hb
    · rintro ⟨_, h0⟩
      omega
    · intro _ hne
      exact absurd rfl hne
  · subst hc
    cases n with
    | zero => simp [bracketed] at hb
    | succ m =>
      refine ⟨con', m, hstep, hs', by rw [h1, ht]; push_cast; omega, by omega,
        ?_, ?_, ?_, ?_, ?_, ?_⟩
      · simpa [bracketed] using hb
      · rcases h3 with ⟨_, _, h⟩ | ⟨_, h⟩ <;> omega
      · rcases h3 with ⟨_, _, h⟩ | ⟨_, h⟩ <;> omega
      · intro hlt
        rcases h3 with ⟨ha, h1', h⟩ | ⟨_, h⟩
        · exact ⟨by rw [h2, ha], by omega⟩
        · omega
      · rintro ⟨ha', h0⟩
        rcases h3 with ⟨_, _, h⟩ | ⟨hne, h⟩
        · left
          omega
        · exfalso
          apply hne
          exact ⟨by rw [← h2]; exact ha', by omega⟩
      · rintro ⟨_, h0⟩ _
        rw [ht] at h0
        push_cast at h0
        omega
  · subst hc
    refine ⟨con', n, hstep, hs', by rw [h1, ht], by omega, ?_, ?_, ?_, ?_, ?_, ?_⟩
    · simpa [bracketed] using hb
    · rcases h3 with ⟨_, _, h⟩ | ⟨_, h⟩ <;> omega
    · rcases h3 with ⟨_, _, h⟩ | ⟨_, h⟩ <;> omega
    · intro hlt
      rcases h3 with ⟨ha, h1', h⟩ | ⟨_, h⟩
      · exact ⟨h2, by omega⟩
      · omega
    · rintro ⟨ha', h0⟩
      rcases h3 with ⟨_, _, h⟩ | ⟨hne, h⟩
      · left
        omega
      · right
        have ht0 : con.tasks = 0 := by omega
        refine ⟨?_, ht0, rfl⟩
        cases ha : con.isActive
        · rfl
        · exact absurd ⟨ha, ht0⟩ hne
    · rintro ⟨ha, h0⟩ _
      rcases h3 with ⟨ha', _, _⟩ | ⟨_, h⟩
      · rw [ha] at ha'
        exact absurd ha' (by decide)
      · exact ⟨h, h2, by omega⟩

/-- For a bracketed sequence on a connection with a socket: the run does not
panic, and an unlink happens during it, or the connection starts inactive
without tasks, exactly when some state of the trace is inactive without
tasks. -/
theorem run_unlink_iff (calls : List Call) :
    ∀ (con : connection) (n : Nat), (∃ s, con.sock = some s) → con.tasks = n →
      n + calls.length < 2147483648 → bracketed n calls = true →
      ∃ final, run con calls = .ok final ∧ con.unlinks ≤ final.unlinks ∧
        ((con.unlinks < final.unlinks ∨ (con.isActive = false ∧ con.tasks = 0)) ↔
          ∃ c ∈ trace con calls, c.isActive = false ∧ c.tasks = 0) := by
  induction calls with
  | nil =>
    intro con n _ _ _ _
    exact ⟨con, rfl, le_refl _, by simp [trace]⟩
  | cons call calls ih =>
    intro con n hs ht hl hb
    obtain ⟨con', n', hstep, hs', ht', hl', hb', hle, _, hunl, hz, _⟩ :=
      step_bracketed con n call calls hs ht hl hb
    obtain ⟨final, hrun, hle', hiff⟩ := ih con' n' hs' ht' hl' hb'
    refine ⟨final, by simp [run, hstep, hrun], by omega, ?_⟩
    simp only [trace, hstep, List.mem_cons, exists_eq_or_imp]
    rw [← hiff]
    constructor
    · rintro (h | h)
      · by_cases hlt : con.unlinks < con'.unlinks
        · exact Or.inr (Or.inr (hunl hlt))
        · exact Or.inr (Or.inl (by omega))
      · exact Or.inl h
    · rintro (h | h | h)
      · exact Or.inr h
      · exact Or.inl (by omega)
      · rcases hz h with h' | ⟨ha, h0, _⟩
        · exact Or.inl (by omega)
        · exact Or.inr ⟨ha, h0⟩

/-- C1: `compareSubProtocols` returns no error exactly when both names are nil
or both are non-nil with equal bytes; in every other case (exactly one nil,
which includes nil against an empty non-nil slice, or two different non-nil
slices) the error is an `ErrMismatchSubProto` carrying copies of both names. -/
theorem compareSubProtocols_spec (server client : Bytes) :
    (compareSubProtocols server client = none ↔
      (server = none ∧ client = none) ∨
        (∃ s c, server = some s ∧ client = some c ∧ s = c)) ∧
    (compareSubProtocols server client = none ∨
      compareSubProtocols server client =
        some (Error.ErrMismatchSubProto client server)) ∧
    compareSubProtocols none (some []) = some (Error.ErrMismatchSubProto (some []) none) ∧
    compareSubProtocols (some []) none = some (Error.ErrMismatchSubProto none (some [])) := by
  refine ⟨?_, ?_, rfl, rfl⟩
  · cases server <;> cases client <;>
      simp [compareSubProtocols, bytesEqual]
  · cases server <;> cases client <;>
      simp [compareSubProtocols, bytesEqual, copyBytes_eq, eq_or_ne]

/-- C2: `verifyProtocolVersion` returns no error exactly when the major version
is 2, whatever the minor version; major version 3 is rejected with
`ErrIncompatibleProtocolVersion` for every minor version. -/
theorem verifyProtocolVersion_spec (major minor : Fin 256) :
    (verifyProtocolVersion major minor = none ↔ major = 2) ∧
    (verifyProtocolVersion major minor = none ∨
      verifyProtocolVersion major minor =
        some (Error.ErrIncompatibleProtocolVersion (sprintfVersion major minor) "2.x")) ∧
    verifyProtocolVersion 3 minor =
      some (Error.ErrIncompatibleProtocolVersion (sprintfVersion 3 minor) "2.x") := by
  refine ⟨?_, ?_, ?_⟩
  · by_cases h : major = 2 <;> simp [verifyProtocolVersion, h]
  · by_cases h : major = 2 <;> simp [verifyProtocolVersion, h]
  · simp [verifyProtocolVersion]

/-- The result of `dial` when the socket dial and the read succeed and the
result is received before the timer fires, by cases on the four checks. -/
theorem dial_resultFirst_cases (MsgAcceptConf : Fin 256) (options : Options) (msg : Message) :
    (msg.MsgType = MsgAcceptConf ∧
      msg.ServerConfiguration.MajorProtocolVersion = 2 ∧
      ((msg.ServerConfiguration.SubProtocolName = none ∧ options.SubProtocolName = none) ∨
        (∃ s c, msg.ServerConfiguration.SubProtocolName = some s ∧
          options.SubProtocolName = some c ∧ s = c)) ∧
      msg.ServerConfiguration.MessageBufferSize = options.MessageBufferSize ∧
      dial MsgAcceptConf options none (.ok msg) .resultFirst =
        (msg.ServerConfiguration, none)) ∨
    (¬ (msg.MsgType = MsgAcceptConf ∧
      msg.ServerConfiguration.MajorProtocolVersion = 2 ∧
      ((msg.ServerConfiguration.SubProtocolName = none ∧ options.SubProtocolName = none) ∨
        (∃ s c, msg.ServerConfiguration.SubProtocolName = some s ∧
          options.SubProtocolName = some c ∧ s = c)) ∧
      msg.ServerConfiguration.MessageBufferSize = options.MessageBufferSize) ∧
      ∃ e, dial MsgAcceptConf options none (.ok msg) .resultFirst =
          (ServerConfiguration.zero, some e) ∧ e.isErrDisconnected = false) := by
  obtain ⟨ty, maj, mnr, sub, sz⟩ := msg
  obtain ⟨csub, csz⟩ := options
  simp only [dial, dialRoutine, verifyProtocolVersion]
  by_cases h1 : ty = MsgAcceptConf
  · by_cases h2 : maj = 2
    · by_cases h4 : csz = sz
      · rcases sub with _ | s <;> rcases csub with _ | c
        · simp [h1, h2, h4, bytesEqual]
        · simp [h1, h2, h4, bytesEqual, Error.isErrDisconnected]
        · simp [h1, h2, h4, bytesEqual, Error.isErrDisconnected]
        · by_cases h3 : s = c <;>
            simp [h1, h2, h4, h3, bytesEqual, Error.isErrDisconnected]
      · have h4b : ¬ sz = csz := fun h => h4 h.symm
        rcases sub with _ | s <;> rcases csub with _ | c
        · simp [h1, h2, h4, h4b, bytesEqual, Error.isErrDisconnected]
        · simp [h1, h2, h4, h4b, bytesEqual, Error.isErrDisconnected]
        · simp [h1, h2, h4, h4b, bytesEqual, Error.isErrDisconnected]
        · by_cases h3 : s = c <;>
            simp [h1, h2, h4, h4b, h3, bytesEqual, Error.isErrDisconnected]
    · simp [h1, h2, Error.isErrDisconnected]
  · simp [h1, Error.isErrDisconnected]

/-- C3: when the socket dial and the read succeed and no timeout occurs, `dial`
returns the server configuration without error exactly when the message is an
accept-configuration message with major protocol version 2, equal sub-protocol
names (both nil or byte-equal) and a buffer size equal to the configured
`MessageBufferSize`. A client configured with 1024 against a server advertising
2048 always fails, and when the other three checks pass the error is the
buffer-capacity mismatch. -/
theorem dial_handshake_spec (MsgAcceptConf : Fin 256) (options : Options) (msg : Message) :
    (dial MsgAcceptConf options none (.ok msg) .resultFirst = (msg.ServerConfiguration, none) ↔
      (msg.MsgType = MsgAcceptConf ∧
        msg.ServerConfiguration.MajorProtocolVersion = 2 ∧
        ((msg.ServerConfiguration.SubProtocolName = none ∧ options.SubProtocolName = none) ∨
          (∃ s c, msg.ServerConfiguration.SubProtocolName = some s ∧
            options.SubProtocolName = some c ∧ s = c)) ∧
        msg.ServerConfiguration.MessageBufferSize = options.MessageBufferSize)) ∧
    ((dial MsgAcceptConf options none (.ok msg) .resultFirst).2 = none ↔
      (msg.MsgType = MsgAcceptConf ∧
        msg.ServerConfiguration.MajorProtocolVersion = 2 ∧
        ((msg.ServerConfiguration.SubProtocolName = none ∧ options.SubProtocolName = none) ∨
          (∃ s c, msg.ServerConfiguration.SubProtocolName = some s ∧
            options.SubProtocolName = some c ∧ s = c)) ∧
        msg.ServerConfiguration.MessageBufferSize = options.MessageBufferSize)) ∧
    (dial MsgAcceptConf { options with MessageBufferSize := 1024 } none
      (.ok { msg with ServerConfiguration :=
        { msg.ServerConfiguration with MessageBufferSize := 2048 } }) .resultFirst).2 ≠ none ∧
    dial MsgAcceptConf { options with MessageBufferSize := 1024 } none
      (.ok { MsgType := MsgAcceptConf, ServerConfiguration :=
        { MajorProtocolVersion := 2,
          MinorProtocolVersion := msg.ServerConfiguration.MinorProtocolVersion,
          SubProtocolName := options.SubProtocolName,
          MessageBufferSize := 2048 } }) .resultFirst =
      (ServerConfiguration.zero, some (Error.Errorf
        "mismatching message buffer capacity (server: %d; client: %d)"
        [.num 2048, .num 1024])) := by
  refine ⟨?_, ?_, ?_, ?_⟩
  · rcases dial_resultFirst_cases MsgAcceptConf options msg with
      ⟨h1, h2, h3, h4, h⟩ | ⟨hn, e, h, _⟩
    · exact ⟨fun _ => ⟨h1, h2, h3, h4⟩, fun _ => h⟩
    · constructor
      · intro h0
        rw [h] at h0
        simp at h0
      · intro hc
        exact absurd hc hn
  · rcases dial_resultFirst_cases MsgAcceptConf options msg with
      ⟨h1, h2, h3, h4, h⟩ | ⟨hn, e, h, _⟩
    · exact ⟨fun _ => ⟨h1, h2, h3, h4⟩, fun _ => by rw [h]⟩
    · constructor
      · intro h0
        rw [h] at h0
        simp at h0
      · intro hc
        exact absurd hc hn
  · rcases dial_resultFirst_cases MsgAcceptConf { options with MessageBufferSize := 1024 }
      { msg with ServerConfiguration :=
        { msg.ServerConfiguration with MessageBufferSize := 2048 } } with
      ⟨_, _, _, h4, _⟩ | ⟨_, e, h, _⟩
    · simp at h4
    · rw [h]
      simp
  · obtain ⟨csub, csz⟩ := options
    rcases csub with _ | c <;>
      simp [dial, dialRoutine, verifyProtocolVersion, bytesEqual]

/-- C4: when the dialing timer fires before a result is received, `dial`
returns `ErrDisconnected`, and the reconnection loop sleeps and retries on it;
when the message read fails one of the handshake checks (kind, major version,
sub-protocol, buffer size), `dial` returns an error that is not an
`ErrDisconnected`, and the reconnection loop flushes that error and stops. -/
theorem dial_timeout_retryable_handshake_fatal (MsgAcceptConf : Fin 256) (options : Options)
    (connDial : Option Error) (connRead : Except SockReadErr Message)
    (abort1 abort2 abort3 : Bool) (msg : Message)
    (hfail : ¬ (msg.MsgType = MsgAcceptConf ∧
      msg.ServerConfiguration.MajorProtocolVersion = 2 ∧
      ((msg.ServerConfiguration.SubProtocolName = none ∧ options.SubProtocolName = none) ∨
        (∃ s c, msg.ServerConfiguration.SubProtocolName = some s ∧
          options.SubProtocolName = some c ∧ s = c)) ∧
      msg.ServerConfiguration.MessageBufferSize = options.MessageBufferSize)) :
    dial MsgAcceptConf options connDial connRead (.timerFirst abort1 abort2 abort3) =
      (ServerConfiguration.zero, some (Error.ErrDisconnected none)) ∧
    reconnectSwitch
      (dial MsgAcceptConf options connDial connRead (.timerFirst abort1 abort2 abort3)).2 =
        .sleepAndRetry ∧
    ∃ e, (dial MsgAcceptConf options none (.ok msg) .resultFirst).2 = some e ∧
      e.isErrDisconnected = false ∧
      reconnectSwitch (dial MsgAcceptConf options none (.ok msg) .resultFirst).2 =
        .flushError e := by
  refine ⟨rfl, rfl, ?_⟩
  rcases dial_resultFirst_cases MsgAcceptConf options msg with
    ⟨h1, h2, h3, h4, _⟩ | ⟨_, e, h, he⟩
  · exact absurd ⟨h1, h2, h3, h4⟩ hfail
  · refine ⟨e, by rw [h], he, ?_⟩
    rw [h]
    cases e <;> simp_all [reconnectSwitch, Error.isErrDisconnected]

/-- Witness for C4: a client without sub-protocol and with buffer size 1024
reads a message of kind 5 where the accept-configuration kind is 23. -/
theorem dial_timeout_retryable_handshake_fatal_witness :
    ¬ ((⟨5, ⟨2, 0, none, 1024⟩⟩ : Message).MsgType = 23) ∧
    (dial 23 ⟨none, 1024⟩ none (.ok ⟨5, ⟨2, 0, none, 1024⟩⟩) (.timerFirst false false false) =
      (ServerConfiguration.zero, some (Error.ErrDisconnected none)) ∧
    reconnectSwitch
      (dial 23 ⟨none, 1024⟩ none (.ok ⟨5, ⟨2, 0, none, 1024⟩⟩)
        (.timerFirst false false false)).2 = .sleepAndRetry ∧
    ∃ e, (dial 23 ⟨none, 1024⟩ none (.ok ⟨5, ⟨2, 0, none, 1024⟩⟩) .resultFirst).2 = some e ∧
      e.isErrDisconnected = false ∧
      reconnectSwitch (dial 23 ⟨none, 1024⟩ none (.ok ⟨5, ⟨2, 0, none, 1024⟩⟩) .resultFirst).2 =
        .flushError e) :=
  ⟨by decide,
    dial_timeout_retryable_handshake_fatal 23 ⟨none, 1024⟩ none (.ok ⟨5, ⟨2, 0, none, 1024⟩⟩)
      false false false ⟨5, ⟨2, 0, none, 1024⟩⟩ (fun h => absurd h.1 (by decide))⟩

theorem trace_head (con : connection) (calls : List Call) :
    (trace con calls).head? = some con := by
  cases calls <;> rfl

/-- In a bracketed sequence on a connection with a socket, every call that
performs an unlink leaves the connection inactive and without tasks. -/
theorem trace_unlink_step (calls : List Call) :
    ∀ (con : connection) (n : Nat), (∃ s, con.sock = some s) → con.tasks = n →
      n + calls.length < 2147483648 → bracketed n calls = true →
      List.Chain' (fun c c' : connection =>
        c.unlinks < c'.unlinks → c'.isActive = false ∧ c'.tasks = 0) (trace con calls) := by
  induction calls with
  | nil =>
    intro con n _ _ _ _
    simp [trace]
  | cons call calls ih =>
    intro con n hs ht hl hb
    obtain ⟨con', n', hstep, hs', ht', hl', hb', _, _, hunl, _, _⟩ :=
      step_bracketed con n call calls hs ht hl hb
    simp only [trace, hstep]
    rw [List.chain'_cons']
    refine ⟨?_, ih con' n' hs' ht' hl' hb'⟩
    intro y hy
    rw [trace_head] at hy
    simp only [Option.mem_def, Option.some.injEq] at hy
    subst hy
    exact hunl

/-- C5, counterexample: on a connection created with a socket, a
`deregisterTask` without a preceding `registerTask` followed by `Close` unlinks
the connection (one registry deregistration, one socket close), although no
state reached has `isActive = false` together with `tasks = 0`: the counter is
-1 when `Close` finds it below 1. Conversely, a connection created without a
socket starts with `isActive = false` and `tasks = 0` and has not been
unlinked. -/
theorem unlink_without_idle_state :
    (∃ final, run exampleConnection [.deregisterTask, .Close] = .ok final ∧
      final.unlinks = 1 ∧
      final.srv.sessionRegistry = [RegistryCall.deregister none false] ∧
      ∀ c ∈ trace exampleConnection [.deregisterTask, .Close],
        ¬ (c.isActive = false ∧ c.tasks = 0)) ∧
    (∃ final, run (newConnection none none exampleServer ⟨1⟩ 0) [] = .ok final ∧
      final.isActive = false ∧ final.tasks = 0 ∧
      final.unlinks = 0 ∧ final.srv.sessionRegistry = []) :=
  ⟨⟨_, rfl, rfl, rfl, by decide⟩, ⟨_, rfl, rfl, rfl, rfl, rfl⟩⟩

/-- A call that returns either performs no part of an unlink (the socket close
count, the registry and the session stay as they are) or all of it: the socket
is closed once more, the session is deregistered without destroying and the
session is cleared. -/
theorem step_unlink_effects (con con' : connection) (call : Call)
    (h : step con call = .ok con') :
    (con'.unlinks = con.unlinks ∧ con'.srv.sessionRegistry = con.srv.sessionRegistry ∧
      con'.session = con.session) ∨
    (con'.unlinks = con.unlinks + 1 ∧
      con'.srv.sessionRegistry = con.srv.sessionRegistry ++
        [RegistryCall.deregister (con.session.map (fun s : Session => s.Key)) false] ∧
      con'.session = none) := by
  cases call with
  | registerTask =>
    simp only [step, Except.ok.injEq] at h
    subst h
    exact Or.inl ⟨rfl, rfl, rfl⟩
  | deregisterTask =>
    simp only [step, connection.deregisterTask, connection.unlink] at h
    split at h
    · split at h
      · exact absurd h (by simp)
      · rename_i sock hsock
        simp only [Except.ok.injEq] at h
        subst h
        exact Or.inr ⟨by simp [connection.unlinks, hsock, Socket.Close], rfl, rfl⟩
    · simp only [Except.ok.injEq] at h
      subst h
      exact Or.inl ⟨rfl, rfl, rfl⟩
  | Close =>
    simp only [step, connection.Close, connection.unlink] at h
    split at h
    · simp only [Except.ok.injEq] at h
      subst h
      exact Or.inl ⟨rfl, rfl, rfl⟩
    · split at h
      · split at h
        · exact absurd h (by simp)
        · rename_i sock hsock
          simp only [Except.ok.injEq] at h
          subst h
          exact Or.inr ⟨by simp [connection.unlinks, hsock, Socket.Close], rfl, rfl⟩
      · simp only [Except.ok.injEq] at h
        subst h
        exact Or.inl ⟨rfl, rfl, rfl⟩

/-- Along every trace, each call performs no part of an unlink or all of it. -/
theorem trace_unlink_effects (calls : List Call) :
    ∀ (con : connection),
      List.Chain' (fun c c' : connection =>
        (c'.unlinks = c.unlinks ∧ c'.srv.sessionRegistry = c.srv.sessionRegistry ∧
          c'.session = c.session) ∨
        (c'.unlinks = c.unlinks + 1 ∧
          c'.srv.sessionRegistry = c.srv.sessionRegistry ++
            [RegistryCall.deregister (c.session.map (fun s : Session => s.Key)) false] ∧
          c'.session = none)) (trace con calls) := by
  induction calls with
  | nil =>
    intro con
    simp [trace]
  | cons call calls ih =>
    intro con
    cases hstep : step con call with
    | error p => simp [trace, hstep]
    | ok con' =>
      simp only [trace, hstep]
      rw [List.chain'_cons']
      refine ⟨?_, ih con'⟩
      intro y hy
      rw [trace_head] at hy
      simp only [Option.mem_def, Option.some.injEq] at hy
      subst hy
      exact step_unlink_effects con con' call hstep

/-- A run that returns either performs no unlink, and then leaves the session
and the registry as they are, or it performs at least one: then the session is
cleared and the registry has received one deregistration without destroying per
socket close, the first one for the session the connection had. -/
theorem run_registry (calls : List Call) :
    ∀ (con final : connection), run con calls = .ok final →
      (final.unlinks = con.unlinks ∧ final.session = con.session ∧
        final.srv.sessionRegistry = con.srv.sessionRegistry) ∨
      (con.unlinks < final.unlinks ∧ final.session = none ∧
        final.srv.sessionRegistry = con.srv.sessionRegistry ++
          RegistryCall.deregister (con.session.map (fun s : Session => s.Key)) false ::
            List.replicate (final.unlinks - con.unlinks - 1)
              (RegistryCall.deregister none false)) := by
  induction calls with
  | nil =>
    intro con final h
    simp only [run, Except.ok.injEq] at h
    subst h
    exact Or.inl ⟨rfl, rfl, rfl⟩
  | cons call calls ih =>
    intro con final h
    simp only [run] at h
    cases hstep : step con call with
    | error p =>
      rw [hstep] at h
      exact absurd h (by simp)
    | ok con' =>
      rw [hstep] at h
      rcases step_unlink_effects con con' call hstep with ⟨hu, hr, hs⟩ | ⟨hu, hr, hs⟩
      · rcases ih con' final h with ⟨hfu, hfs, hfr⟩ | ⟨hfu, hfs, hfr⟩
        · exact Or.inl ⟨by omega, by rw [hfs, hs], by rw [hfr, hr]⟩
        · exact Or.inr ⟨by omega, hfs, by rw [hfr, hr, hs, hu]⟩
      · rcases ih con' final h with ⟨hfu, hfs, hfr⟩ | ⟨hfu, hfs, hfr⟩
        · refine Or.inr ⟨by omega, by rw [hfs, hs], ?_⟩
          have hcount : final.unlinks - con.unlinks - 1 = 0 := by omega
          rw [hfr, hr, hcount]
          rfl
        · refine Or.inr ⟨by omega, hfs, ?_⟩
          have hcount : final.unlinks - con.unlinks - 1 =
              (final.unlinks - con'.unlinks - 1) + 1 := by omega
          rw [hfr, hr, hs, hcount, List.replicate_succ, List.append_assoc]
          rfl

/-- C5, amended: take a connection that has a socket, is active and has no task
registered (the state in which `newConnection` with a socket creates it, with
or without a session attached since), and a sequence of fewer than 2^31 calls
in which every `deregisterTask` answers an outstanding `registerTask`. The run
does not panic. The connection has been unlinked when the sequence ends (its
socket closed and its session deregistered) exactly when a state with
`isActive = false` and `tasks = 0` has been reached. Every call that performs
an unlink leaves `isActive = false` and `tasks = 0`, so that no unlink happens
while the connection is active or a task is outstanding. The effects of an
unlink go together: every call either leaves the socket close count, the
registry and the session as they are, or closes the socket once, deregisters
the session without destroying and clears the session. At the end either
nothing of this has happened, or the session is cleared and the registry has
received one deregistration per socket close, the first of them for the
session the connection had. -/
theorem unlinked_iff_inactive_idle_reached (con : connection) (socket : Socket)
    (calls : List Call)
    (hsock : con.sock = some socket) (hact : con.isActive = true) (htasks : con.tasks = 0)
    (hlen : calls.length < 2147483648) (hbr : bracketed 0 calls = true) :
    ∃ final, run con calls = .ok final ∧
      (socket.closeCalls < final.unlinks ↔
        ∃ c ∈ trace con calls, c.isActive = false ∧ c.tasks = 0) ∧
      List.Chain' (fun c c' : connection =>
        c.unlinks < c'.unlinks → c'.isActive = false ∧ c'.tasks = 0) (trace con calls) ∧
      ((socket.closeCalls < final.unlinks ∧
          RegistryCall.deregister (con.session.map (fun s : Session => s.Key)) false ∈
            final.srv.sessionRegistry.drop con.srv.sessionRegistry.length ∧
          final.session = none) ↔
        ∃ c ∈ trace con calls, c.isActive = false ∧ c.tasks = 0) ∧
      ((final.unlinks = socket.closeCalls ∧ final.session = con.session ∧
          final.srv.sessionRegistry = con.srv.sessionRegistry) ∨
        (socket.closeCalls < final.unlinks ∧ final.session = none ∧
          final.srv.sessionRegistry = con.srv.sessionRegistry ++
            RegistryCall.deregister (con.session.map (fun s : Session => s.Key)) false ::
              List.replicate (final.unlinks - socket.closeCalls - 1)
                (RegistryCall.deregister none false))) ∧
      List.Chain' (fun c c' : connection =>
        (c'.unlinks = c.unlinks ∧ c'.srv.sessionRegistry = c.srv.sessionRegistry ∧
          c'.session = c.session) ∨
        (c'.unlinks = c.unlinks + 1 ∧
          c'.srv.sessionRegistry = c.srv.sessionRegistry ++
            [RegistryCall.deregister (c.session.map (fun s : Session => s.Key)) false] ∧
          c'.session = none))
        (trace con calls) := by
  have hs : ∃ s, con.sock = some s := ⟨socket, hsock⟩
  have ht : con.tasks = (0 : Nat) := by rw [htasks]; rfl
  have hcu : con.unlinks = socket.closeCalls := by simp [connection.unlinks, hsock]
  obtain ⟨final, hrun, _, hiff⟩ := run_unlink_iff calls con 0 hs ht (by omega) hbr
  have hreg := run_registry calls con final hrun
  rw [hcu] at hreg
  have hiff' : socket.closeCalls < final.unlinks ↔
      ∃ c ∈ trace con calls, c.isActive = false ∧ c.tasks = 0 := by
    rw [← hiff, hcu]
    constructor
    · intro h
      exact Or.inl h
    · rintro (h | ⟨ha, _⟩)
      · exact h
      · rw [hact] at ha
        exact absurd ha (by simp)
  refine ⟨final, hrun, hiff', trace_unlink_step calls con 0 hs ht (by omega) hbr, ?_, hreg,
    trace_unlink_effects calls con⟩
  rw [← hiff']
  constructor
  · intro h
    exact h.1
  · intro h
    rcases hreg with ⟨hfu, _, _⟩ | ⟨_, hfs, hfr⟩
    · omega
    · refine ⟨h, ?_, hfs⟩
      rw [hfr, List.drop_left]
      exact List.mem_cons_self _ _

/-- Witness for C5: on the example connection with a session attached, two
handlers run, `Close` is called while the second is running, and the unlink is
performed by the last `deregisterTask`. -/
theorem unlinked_iff_inactive_idle_reached_witness :
    (exampleSessionConnection.sock = some exampleSocket ∧
      exampleSessionConnection.isActive = true ∧ exampleSessionConnection.tasks = 0 ∧
      [Call.registerTask, .deregisterTask, .registerTask, .Close, .deregisterTask].length
        < 2147483648 ∧
      bracketed 0 [.registerTask, .deregisterTask, .registerTask, .Close, .deregisterTask]
        = true) ∧
    ∃ final, run exampleSessionConnection
        [.registerTask, .deregisterTask, .registerTask, .Close, .deregisterTask] = .ok final ∧
      (exampleSocket.closeCalls < final.unlinks ↔
        ∃ c ∈ trace exampleSessionConnection
            [.registerTask, .deregisterTask, .registerTask, .Close, .deregisterTask],
          c.isActive = false ∧ c.tasks = 0) ∧
      List.Chain' (fun c c' : connection =>
        c.unlinks < c'.unlinks → c'.isActive = false ∧ c'.tasks = 0)
        (trace exampleSessionConnection
          [.registerTask, .deregisterTask, .registerTask, .Close, .deregisterTask]) ∧
      ((exampleSocket.closeCalls < final.unlinks ∧
          RegistryCall.deregister
              (exampleSessionConnection.session.map (fun s : Session => s.Key)) false ∈
            final.srv.sessionRegistry.drop exampleSessionConnection.srv.sessionRegistry.length ∧
          final.session = none) ↔
        ∃ c ∈ trace exampleSessionConnection
            [.registerTask, .deregisterTask, .registerTask, .Close, .deregisterTask],
          c.isActive = false ∧ c.tasks = 0) ∧
      ((final.unlinks = exampleSocket.closeCalls ∧
          final.session = exampleSessionConnection.session ∧
          final.srv.sessionRegistry = exampleSessionConnection.srv.sessionRegistry) ∨
        (exampleSocket.closeCalls < final.unlinks ∧ final.session = none ∧
          final.srv.sessionRegistry = exampleSessionConnection.srv.sessionRegistry ++
            RegistryCall.deregister
                (exampleSessionConnection.session.map (fun s : Session => s.Key)) false ::
              List.replicate (final.unlinks - exampleSocket.closeCalls - 1)
                (RegistryCall.deregister none false))) ∧
      List.Chain' (fun c c' : connection =>
        (c'.unlinks = c.unlinks ∧ c'.srv.sessionRegistry = c.srv.sessionRegistry ∧
          c'.session = c.session) ∨
        (c'.unlinks = c.unlinks + 1 ∧
          c'.srv.sessionRegistry = c.srv.sessionRegistry ++
            [RegistryCall.deregister (c.session.map (fun s : Session => s.Key)) false] ∧
          c'.session = none))
        (trace exampleSessionConnection
          [.registerTask, .deregisterTask, .registerTask, .Close, .deregisterTask]) :=
  ⟨⟨rfl, rfl, rfl, by decide, by decide⟩,
    unlinked_iff_inactive_idle_reached exampleSessionConnection exampleSocket
      [.registerTask, .deregisterTask, .registerTask, .Close, .deregisterTask]
      rfl rfl rfl (by decide) (by decide)⟩

/-- For a bracketed sequence that registers no task on an inactive connection
without tasks: the run does not panic and performs at most one unlink, and none
at all when the connection starts inactive without tasks. -/
theorem run_unlinks_le (calls : List Call) :
    ∀ (con : connection) (n : Nat), (∃ s, con.sock = some s) → con.tasks = n →
      n + calls.length < 2147483648 → bracketed n calls = true →
      registersWhileLive con calls = true →
      ∃ final, run con calls = .ok final ∧ final.unlinks ≤ con.unlinks + 1 ∧
        (con.isActive = false ∧ con.tasks = 0 → final.unlinks = con.unlinks) := by
  induction calls with
  | nil =>
    intro con n _ _ _ _ _
    exact ⟨con, rfl, by omega, fun _ => rfl⟩
  | cons call calls ih =>
    intro con n hs ht hl hb hlive
    obtain ⟨con', n', hstep, hs', ht', hl', hb', hle, hle1, hunl, _, hidle⟩ :=
      step_bracketed con n call calls hs ht hl hb
    simp only [registersWhileLive, hstep, Bool.and_eq_true, Bool.not_eq_true'] at hlive
    obtain ⟨hnoreg, hlive'⟩ := hlive
    obtain ⟨final, hrun, hfin, hfin0⟩ := ih con' n' hs' ht' hl' hb' hlive'
    refine ⟨final, by simp [run, hstep, hrun], ?_, ?_⟩
    · by_cases hlt : con.unlinks < con'.unlinks
      · have := hfin0 (hunl hlt)
        omega
      · omega
    · rintro ⟨ha, h0⟩
      have hne : call ≠ .registerTask := by
        intro hc
        simp [ha, h0, hc] at hnoreg
      obtain ⟨hu, ha', h0'⟩ := hidle ⟨ha, h0⟩ hne
      have := hfin0 ⟨ha', h0'⟩
      omega

/-- C6, counterexample: `Close` on a fresh connection unlinks it; a task that is
registered afterwards and deregistered again unlinks it a second time, so the
socket is closed twice. -/
theorem socket_closed_twice :
    bracketed 0 [.Close, .registerTask, .deregisterTask] = true ∧
    ∃ final, run exampleConnection [.Close, .registerTask, .deregisterTask] = .ok final ∧
      exampleConnection.unlinks = 0 ∧ final.unlinks = 2 ∧
      final.srv.sessionRegistry =
        [RegistryCall.deregister none false, RegistryCall.deregister none false] :=
  ⟨rfl, _, rfl, rfl, rfl, rfl⟩

/-- A call that returns on a connection without socket leaves it without
socket. -/
theorem step_sock_none (con con' : connection) (call : Call)
    (h : step con call = .ok con') (hs : con.sock = none) : con'.sock = none := by
  cases call with
  | registerTask =>
    simp only [step, Except.ok.injEq] at h
    subst h
    exact hs
  | deregisterTask =>
    simp only [step, connection.deregisterTask, connection.unlink, hs] at h
    split at h
    · exact absurd h (by simp)
    · simp only [Except.ok.injEq] at h
      subst h
      rfl
  | Close =>
    simp only [step, connection.Close, connection.unlink, hs] at h
    split at h
    · simp only [Except.ok.injEq] at h
      subst h
      exact hs
    · split at h
      · exact absurd h (by simp)
      · simp only [Except.ok.injEq] at h
        subst h
        rfl

/-- A run that returns on a connection without socket ends without socket. -/
theorem run_sock_none (calls : List Call) :
    ∀ (con final : connection), run con calls = .ok final → con.sock = none →
      final.sock = none := by
  induction calls with
  | nil =>
    intro con final h hs
    simp only [run, Except.ok.injEq] at h
    subst h
    exact hs
  | cons call calls ih =>
    intro con final h hs
    simp only [run] at h
    cases hstep : step con call with
    | error p =>
      rw [hstep] at h
      exact absurd h (by simp)
    | ok con' =>
      rw [hstep] at h
      exact ih con' final h (step_sock_none con con' call hstep hs)

/-- C6, amended: for every sequence of fewer than 2^31 calls in which every
`deregisterTask` answers an outstanding `registerTask` and no `registerTask` is
called once the connection is inactive without tasks, the socket of a
connection made by `newConnection` is closed at most once; when the connection
was created with a socket the run does not panic. -/
theorem socket_closed_at_most_once (socket : Option Socket) (userAgent : Bytes)
    (srv : server) (options : ConnectionOptions) (now : Nat) (calls : List Call)
    (hlen : calls.length < 2147483648) (hbr : bracketed 0 calls = true)
    (hlive : registersWhileLive (newConnection socket userAgent srv options now) calls
      = true) :
    (∀ final, run (newConnection socket userAgent srv options now) calls = .ok final →
      final.unlinks ≤ (newConnection socket userAgent srv options now).unlinks + 1) ∧
    (socket.isSome = true →
      ∃ final, run (newConnection socket userAgent srv options now) calls = .ok final) := by
  cases socket with
  | none =>
    refine ⟨?_, fun h => absurd h (by simp)⟩
    intro final hrun
    have hnone := run_sock_none calls _ final hrun rfl
    simp [connection.unlinks, hnone]
  | some sock =>
    obtain ⟨final, hrun, hle, _⟩ :=
      run_unlinks_le calls (newConnection (some sock) userAgent srv options now) 0
        ⟨sock, rfl⟩ rfl (by omega) hbr hlive
    refine ⟨?_, fun _ => ⟨final, hrun⟩⟩
    intro final' hrun'
    rw [hrun] at hrun'
    simp only [Except.ok.injEq] at hrun'
    subst hrun'
    exact hle

/-- Witness for C6: a task registered after `Close` while another one is still
running does not lead to a second unlink. -/
theorem socket_closed_at_most_once_witness :
    ([Call.registerTask, .Close, .registerTask, .deregisterTask, .deregisterTask, .Close].length
        < 2147483648 ∧
      bracketed 0
        [.registerTask, .Close, .registerTask, .deregisterTask, .deregisterTask, .Close] = true ∧
      registersWhileLive (newConnection (some exampleSocket) none exampleServer ⟨1⟩ 0)
        [.registerTask, .Close, .registerTask, .deregisterTask, .deregisterTask, .Close] = true) ∧
    (∀ final, run (newConnection (some exampleSocket) none exampleServer ⟨1⟩ 0)
        [.registerTask, .Close, .registerTask, .deregisterTask, .deregisterTask, .Close]
          = .ok final →
      final.unlinks ≤ (newConnection (some exampleSocket) none exampleServer ⟨1⟩ 0).unlinks + 1) ∧
    ((some exampleSocket).isSome = true →
      ∃ final, run (newConnection (some exampleSocket) none exampleServer ⟨1⟩ 0)
        [.registerTask, .Close, .registerTask, .deregisterTask, .deregisterTask, .Close]
          = .ok final) :=
  ⟨⟨by decide, by decide, by decide⟩,
    socket_closed_at_most_once (some exampleSocket) none exampleServer ⟨1⟩ 0
      [.registerTask, .Close, .registerTask, .deregisterTask, .deregisterTask, .Close]
      (by decide) (by decide) (by decide)⟩

/-- The task counter after a call that returns, whatever the socket. -/
theorem step_tasks (con con' : connection) (call : Call) (h : step con call = .ok con') :
    (call = .registerTask ∧ con'.tasks = wrapInt32 (con.tasks + 1)) ∨
    (call = .deregisterTask ∧ con'.tasks = wrapInt32 (con.tasks - 1)) ∨
    (call = .Close ∧ con'.tasks = con.tasks) := by
  cases call with
  | registerTask =>
    simp only [step, Except.ok.injEq] at h
    subst h
    exact Or.inl ⟨rfl, rfl⟩
  | deregisterTask =>
    refine Or.inr (Or.inl ⟨rfl, ?_⟩)
    simp only [step, connection.deregisterTask, connection.unlink] at h
    split at h
    · split at h
      · exact absurd h (by simp)
      · simp only [Except.ok.injEq] at h
        subst h
        rfl
    · simp only [Except.ok.injEq] at h
      subst h
      rfl
  | Close =>
    refine Or.inr (Or.inr ⟨rfl, ?_⟩)
    simp only [step, connection.Close, connection.unlink] at h
    split at h
    · simp only [Except.ok.injEq] at h
      subst h
      rfl
    · split at h
      · split at h
        · exact absurd h (by simp)
        · simp only [Except.ok.injEq] at h
          subst h
          rfl
      · simp only [Except.ok.injEq] at h
        subst h
        rfl

/-- In a bracketed sequence the task counter of every state reached is
non-negative, with or without a socket. -/
theorem trace_tasks_nonneg (calls : List Call) :
    ∀ (con : connection) (n : Nat), con.tasks = n →
      n + calls.length < 2147483648 → bracketed n calls = true →
      ∀ c ∈ trace con calls, 0 ≤ c.tasks := by
  induction calls with
  | nil =>
    intro con n ht _ _ c hc
    simp only [trace, List.mem_singleton] at hc
    subst hc
    omega
  | cons call calls ih =>
    intro con n ht hl hb c hc
    simp only [List.length_cons] at hl
    simp only [trace, List.mem_cons] at hc
    rcases hc with hc | hc
    · subst hc
      omega
    · cases hstep : step con call with
      | error p =>
        rw [hstep] at hc
        simp at hc
      | ok con' =>
        rw [hstep] at hc
        rcases step_tasks con con' call hstep with ⟨hcall, h⟩ | ⟨hcall, h⟩ | ⟨hcall, h⟩
        · subst hcall
          rw [wrapInt32_eq (by omega) (by omega)] at h
          exact ih con' (n + 1) (by rw [h, ht]; push_cast; rfl) (by omega)
            (by simpa [bracketed] using hb) c hc
        · subst hcall
          cases n with
          | zero => simp [bracketed] at hb
          | succ m =>
            rw [wrapInt32_eq (by omega) (by omega)] at h
            exact ih con' m (by rw [h, ht]; push_cast; omega) (by omega)
              (by simpa [bracketed] using hb) c hc
        · subst hcall
          exact ih con' n (by rw [h, ht]) (by omega) (by simpa [bracketed] using hb) c hc

/-- A bracketed sequence on a connection with a socket reaches one state per
call: no call panics. -/
theorem trace_length (calls : List Call) :
    ∀ (con : connection) (n : Nat), (∃ s, con.sock = some s) → con.tasks = n →
      n + calls.length < 2147483648 → bracketed n calls = true →
      (trace con calls).length = calls.length + 1 := by
  induction calls with
  | nil =>
    intro con n _ _ _ _
    rfl
  | cons call calls ih =>
    intro con n hs ht hl hb
    obtain ⟨con', n', hstep, hs', ht', hl', hb', _⟩ :=
      step_bracketed con n call calls hs ht hl hb
    simp only [trace, hstep, List.length_cons, ih con' n' hs' ht' hl' hb']

/-- C7, counterexample: a `deregisterTask` on a new connection, without a
preceding `registerTask`, leaves the task counter at -1. -/
theorem tasks_negative_after_unmatched_deregisterTask :
    ∃ c, run exampleConnection [.deregisterTask] = .ok c ∧ c.tasks = -1 ∧ ¬ (0 ≤ c.tasks) :=
  ⟨_, rfl, by decide, by decide⟩

/-- C7, amended: for every sequence of fewer than 2^31 calls in which every
`deregisterTask` answers an outstanding `registerTask`, the task counter is
non-negative in every state reached from `newConnection`; when the connection
was created with a socket, every call of the sequence returns. -/
theorem tasks_nonneg_of_bracketed (socket : Option Socket) (userAgent : Bytes)
    (srv : server) (options : ConnectionOptions) (now : Nat) (calls : List Call)
    (hlen : calls.length < 2147483648) (hbr : bracketed 0 calls = true) :
    (∀ c ∈ trace (newConnection socket userAgent srv options now) calls, 0 ≤ c.tasks) ∧
    (socket.isSome = true →
      (trace (newConnection socket userAgent srv options now) calls).length
        = calls.length + 1) := by
  refine ⟨trace_tasks_nonneg calls _ 0 rfl (by omega) hbr, ?_⟩
  intro hsome
  obtain ⟨s, hs⟩ := Option.isSome_iff_exists.mp hsome
  subst hs
  exact trace_length calls _ 0 ⟨s, rfl⟩ rfl (by omega) hbr

/-- Witness for C7: two overlapping handlers and a `Close` on the example
connection. -/
theorem tasks_nonneg_of_bracketed_witness :
    ([Call.registerTask, .registerTask, .deregisterTask, .Close, .deregisterTask].length
        < 2147483648 ∧
      bracketed 0 [.registerTask, .registerTask, .deregisterTask, .Close, .deregisterTask]
        = true) ∧
    (∀ c ∈ trace (newConnection (some exampleSocket) none exampleServer ⟨1⟩ 0)
        [.registerTask, .registerTask, .deregisterTask, .Close, .deregisterTask],
      0 ≤ c.tasks) ∧
    ((some exampleSocket).isSome = true →
      (trace (newConnection (some exampleSocket) none exampleServer ⟨1⟩ 0)
        [.registerTask, .registerTask, .deregisterTask, .Close, .deregisterTask]).length
        = [Call.registerTask, .registerTask, .deregisterTask, .Close, .deregisterTask].length
          + 1) :=
  ⟨⟨by decide, by decide⟩,
    tasks_nonneg_of_bracketed (some exampleSocket) none exampleServer ⟨1⟩ 0
      [.registerTask, .registerTask, .deregisterTask, .Close, .deregisterTask]
      (by decide) (by decide)⟩

/-- On an inactive connection with a socket and `m` outstanding tasks, fewer
than `m` calls of `deregisterTask` return without unlinking. -/
theorem run_deregisterTask_lt (k : Nat) :
    ∀ (con : connection) (m : Nat), (∃ s, con.sock = some s) → con.isActive = false →
      con.tasks = m → m < 2147483648 → k < m →
      ∃ ck, run con (List.replicate k .deregisterTask) = .ok ck ∧
        ck.unlinks = con.unlinks ∧ ck.isActive = false ∧ ck.tasks = (m - k : Nat) ∧
        (∃ s, ck.sock = some s) := by
  induction k with
  | zero =>
    intro con m hs ha ht _ _
    exact ⟨con, rfl, rfl, ha, by simpa using ht, hs⟩
  | succ k ih =>
    intro con m hs ha ht hm hk
    obtain ⟨con', hstep⟩ := step_total con .deregisterTask hs
    obtain ⟨hs', heff⟩ := step_effect con con' .deregisterTask hstep hs
      (by omega) (by omega) (fun h => absurd h (by decide)) (fun _ => by omega)
    rcases heff with ⟨hc, _⟩ | ⟨_, h1, h2, h3⟩ | ⟨hc, _⟩
    · exact absurd hc (by decide)
    · have hu : con'.unlinks = con.unlinks := by
        rcases h3 with ⟨_, h, _⟩ | ⟨_, h⟩
        · omega
        · exact h
      obtain ⟨ck, hrun, hcku, hcka, hckt, hcks⟩ :=
        ih con' (m - 1) hs' (by rw [h2, ha]) (by rw [h1, ht]; omega) (by omega) (by omega)
      refine ⟨ck, ?_, by omega, hcka, ?_, hcks⟩
      · simp only [List.replicate_succ, run, hstep, hrun]
      · rw [hckt]
        have : m - 1 - k = m - (k + 1) := by omega
        rw [this]
    · exact absurd hc (by decide)

/-- On an inactive connection with a socket and `m > 0` outstanding tasks, the
`m`-th call of `deregisterTask` performs the unlink. -/
theorem run_deregisterTask_last (con : connection) (m : Nat) (hs : ∃ s, con.sock = some s)
    (ha : con.isActive = false) (ht : con.tasks = m) (hm : m < 2147483648) (hpos : 0 < m) :
    ∃ cm, run con (List.replicate m .deregisterTask) = .ok cm ∧
      cm.unlinks = con.unlinks + 1 ∧ cm.isActive = false ∧ cm.tasks = 0 := by
  obtain ⟨ck, hrun, hcku, hcka, hckt, hcks⟩ :=
    run_deregisterTask_lt (m - 1) con m hs ha ht hm (by omega)
  obtain ⟨cm, hstep⟩ := step_total ck .deregisterTask hcks
  have hck1 : ck.tasks = 1 := by
    rw [hckt]
    have : m - (m - 1) = 1 := by omega
    rw [this]
    rfl
  obtain ⟨_, heff⟩ := step_effect ck cm .deregisterTask hstep hcks
    (by omega) (by omega) (fun h => absurd h (by decide)) (fun _ => by omega)
  have hsplit : List.replicate m Call.deregisterTask =
      List.replicate (m - 1) .deregisterTask ++ [.deregisterTask] := by
    rw [← List.replicate_succ']
    congr 1
    omega
  have hrun_append : ∀ (xs ys : List Call) (c c' : connection),
      run c xs = .ok c' → run c (xs ++ ys) = run c' ys := by
    intro xs
    induction xs with
    | nil =>
      intro ys c c' h
      simp only [run, Except.ok.injEq] at h
      subst h
      rfl
    | cons x xs ih =>
      intro ys c c' h
      simp only [run, List.cons_append] at h ⊢
      cases hx : step c x with
      | error p =>
        rw [hx] at h
        exact absurd h (by simp)
      | ok c1 =>
        rw [hx] at h
        simp only [] at h ⊢
        exact ih ys c1 c' h
  rcases heff with ⟨hc, _⟩ | ⟨_, h1, h2, h3⟩ | ⟨hc, _⟩
  · exact absurd hc (by decide)
  · refine ⟨cm, ?_, ?_, by rw [h2, hcka], by omega⟩
    · rw [hsplit, hrun_append _ _ _ _ hrun]
      simp only [run, hstep]
    · rcases h3 with ⟨_, _, h⟩ | ⟨hne, _⟩
      · omega
      · exact absurd ⟨hcka, hck1⟩ hne
  · exact absurd hc (by decide)

/-- C8: on an active connection with a socket and `n` outstanding tasks, `Close`
returns with `isActive = false`. With `n = 0` it is the unlink of the
connection marked inactive, and the socket is closed by it. With `n > 0` only
the flag changes; each of the first `n - 1` following calls of `deregisterTask`
returns without closing the socket, and the `n`-th one closes it. -/
theorem Close_unlinks_now_or_at_last_deregisterTask (con : connection) (s : Socket) (n : Nat)
    (hact : con.isActive = true) (hs : con.sock = some s) (ht : con.tasks = n)
    (hn : n < 2147483648) :
    ∃ c1, con.Close = .ok c1 ∧ c1.isActive = false ∧
      (n = 0 → con.Close = ({ con with isActive := false }).unlink ∧
        c1.unlinks = con.unlinks + 1) ∧
      (0 < n → c1 = { con with isActive := false } ∧ c1.unlinks = con.unlinks ∧
        (∀ k, k < n → ∃ ck, run c1 (List.replicate k .deregisterTask) = .ok ck ∧
          ck.unlinks = con.unlinks) ∧
        ∃ cn, run c1 (List.replicate n .deregisterTask) = .ok cn ∧
          cn.unlinks = con.unlinks + 1) := by
  by_cases h0 : n = 0
  · subst h0
    have ht0 : con.tasks = 0 := by simpa using ht
    obtain ⟨c1, hstep⟩ := step_total con .Close ⟨s, hs⟩
    obtain ⟨_, heff⟩ := step_effect con c1 .Close hstep ⟨s, hs⟩
      (by omega) (by omega) (fun h => absurd h (by decide)) (fun h => absurd h (by decide))
    rcases heff with ⟨hc, _⟩ | ⟨hc, _⟩ | ⟨_, _, h2, h3⟩
    · exact absurd hc (by decide)
    · exact absurd hc (by decide)
    · refine ⟨c1, hstep, h2, fun _ => ⟨?_, ?_⟩, fun h => absurd h (by decide)⟩
      · simp [connection.Close, hact, ht0]
      · rcases h3 with ⟨_, _, h⟩ | ⟨hne, _⟩
        · exact h
        · exact absurd ⟨hact, ht0⟩ hne
  · have hpos : 0 < n := Nat.pos_of_ne_zero h0
    have hc1 : con.Close = .ok { con with isActive := false } := by
      have : ¬ con.tasks < 1 := by omega
      simp [connection.Close, hact, this]
    have hs1 : ∃ s', ({ con with isActive := false } : connection).sock = some s' := ⟨s, hs⟩
    refine ⟨{ con with isActive := false }, hc1, rfl, fun h => absurd h h0, fun _ => ?_⟩
    refine ⟨rfl, rfl, ?_, ?_⟩
    · intro k hk
      obtain ⟨ck, hrun, hu, _⟩ :=
        run_deregisterTask_lt k { con with isActive := false } n hs1 rfl ht hn hk
      exact ⟨ck, hrun, hu⟩
    · obtain ⟨cn, hrun, hu, _⟩ :=
        run_deregisterTask_last { con with isActive := false } n hs1 rfl ht hn hpos
      exact ⟨cn, hrun, hu⟩

/-- Witness for C8: `Close` while two tasks are outstanding on the example
connection. -/
theorem Close_unlinks_now_or_at_last_deregisterTask_witness :
    (exampleConnection.registerTask.registerTask.isActive = true ∧
      exampleConnection.registerTask.registerTask.sock = some exampleSocket ∧
      exampleConnection.registerTask.registerTask.tasks = (2 : Nat) ∧
      2 < 2147483648) ∧
    ∃ c1, exampleConnection.registerTask.registerTask.Close = .ok c1 ∧ c1.isActive = false ∧
      (2 = 0 → exampleConnection.registerTask.registerTask.Close =
          ({ exampleConnection.registerTask.registerTask with isActive := false }).unlink ∧
        c1.unlinks = exampleConnection.registerTask.registerTask.unlinks + 1) ∧
      (0 < 2 → c1 = { exampleConnection.registerTask.registerTask with isActive := false } ∧
        c1.unlinks = exampleConnection.registerTask.registerTask.unlinks ∧
        (∀ k, k < 2 → ∃ ck, run c1 (List.replicate k .deregisterTask) = .ok ck ∧
          ck.unlinks = exampleConnection.registerTask.registerTask.unlinks) ∧
        ∃ cn, run c1 (List.replicate 2 .deregisterTask) = .ok cn ∧
          cn.unlinks = exampleConnection.registerTask.registerTask.unlinks + 1) :=
  ⟨⟨rfl, rfl, by decide, by decide⟩,
    Close_unlinks_now_or_at_last_deregisterTask exampleConnection.registerTask.registerTask
      exampleSocket 2 rfl rfl (by decide) (by decide)⟩

/-- C9, counterexample: `newConnection` accepts a nil socket and then creates
a connection that is considered closed (`isActive = false`). On such a
connection of a server with sessions enabled `CreateSession` does not return
`DisconnectedErr`: the call `con.sock.IsConnected()` dereferences the nil
socket, so that the method panics and returns nothing. -/
theorem CreateSession_nil_socket_panics :
    (newConnection none none exampleServer ⟨1⟩ 0).srv.sessionsEnabled = true ∧
    (newConnection none none exampleServer ⟨1⟩ 0).sock = none ∧
    (newConnection none none exampleServer ⟨1⟩ 0).isActive = false ∧
    (newConnection none none exampleServer ⟨1⟩ 0).CreateSession none exampleEnv =
      .error .nilDereference ∧
    ∀ result, (newConnection none none exampleServer ⟨1⟩ 0).CreateSession none exampleEnv ≠
      .ok result :=
  ⟨rfl, rfl, rfl, rfl, fun _ h => by simp [connection.CreateSession, newConnection,
    exampleServer] at h⟩

/-- C9, amended: `CreateSession` returns `SessionsDisabledErr` whenever sessions
are disabled on the server, whatever the socket and the session; otherwise, on
a connection that has a socket, `DisconnectedErr` whenever the socket is not
connected; otherwise the "another session is already active" error whenever a
session is attached. In each case the connection, and with it its session, the
calls received by the registry and the hook, and the messages written to the
socket, is returned unchanged. -/
theorem CreateSession_rejections (con : connection) (attachment : Option SessionInfo)
    (env : CreateSessionEnv) :
    (con.srv.sessionsEnabled = false →
      con.CreateSession attachment env = .ok (con, some Error.SessionsDisabledErr)) ∧
    (∀ sock, con.srv.sessionsEnabled = true → con.sock = some sock →
      sock.IsConnected = false →
      con.CreateSession attachment env = .ok (con, some (Error.DisconnectedErr (some
        (Error.Errorf "Can't create session on disconnected connection" []))))) ∧
    (∀ sock session, con.srv.sessionsEnabled = true → con.sock = some sock →
      sock.IsConnected = true → con.session = some session →
      con.CreateSession attachment env = .ok (con, some
        (Error.Errorf "Another session (%s) on this client is already active"
          [.str session.Key]))) := by
  refine ⟨?_, ?_, ?_⟩
  · intro h
    simp [connection.CreateSession, h]
  · intro sock h hs hc
    simp [connection.CreateSession, h, hs, hc]
  · intro sock session h hs hc hsess
    simp [connection.CreateSession, h, hs, hc, hsess]

/-- Witness for C9: sessions disabled on a connection without socket; a closed
socket; a connection that already has a session. -/
theorem CreateSession_rejections_witness :
    (newConnection none none { exampleServer with sessionsEnabled := false } ⟨1⟩ 0).CreateSession
        none exampleEnv =
      .ok (newConnection none none { exampleServer with sessionsEnabled := false } ⟨1⟩ 0,
        some Error.SessionsDisabledErr) ∧
    ({ exampleConnection with sock := some exampleSocket.Close }).CreateSession none exampleEnv =
      .ok ({ exampleConnection with sock := some exampleSocket.Close },
        some (Error.DisconnectedErr (some
          (Error.Errorf "Can't create session on disconnected connection" [])))) ∧
    ({ exampleConnection with session := some (NewSession none "k0" 3) }).CreateSession
        none exampleEnv =
      .ok ({ exampleConnection with session := some (NewSession none "k0" 3) },
        some (Error.Errorf "Another session (%s) on this client is already active"
          [.str "k0"])) :=
  ⟨(CreateSession_rejections
      (newConnection none none { exampleServer with sessionsEnabled := false } ⟨1⟩ 0)
      none exampleEnv).1 rfl,
    (CreateSession_rejections { exampleConnection with sock := some exampleSocket.Close }
      none exampleEnv).2.1 exampleSocket.Close rfl rfl rfl,
    (CreateSession_rejections { exampleConnection with session := some (NewSession none "k0" 3) }
      none exampleEnv).2.2 exampleSocket (NewSession none "k0" 3) rfl rfl rfl rfl⟩

/-- A failed notification leaves the connection as it was. -/
theorem notifySessionCreated_failure (con con' : connection) (newSession : Session)
    (env : CreateSessionEnv) (err : Error)
    (h : con.notifySessionCreated newSession env = .ok (con', some err)) : con' = con := by
  simp only [connection.notifySessionCreated] at h
  split at h
  · simp only [Except.ok.injEq, Prod.mk.injEq] at h
    exact h.1.symm
  · split at h
    · exact absurd h (by simp)
    · split at h
      · simp only [Except.ok.injEq, Prod.mk.injEq] at h
        exact h.1.symm
      · split at h
        · simp only [Except.ok.injEq, Prod.mk.injEq] at h
          exact h.1.symm
        · simp at h

/-- C10: when sessions are enabled, the socket is connected, no session is
attached and notifying the peer about the new session fails with `err`,
`CreateSession` returns the error "couldn't notify client about the session
creation" wrapping `err`, and the connection is returned as it was: it has no
session, the registry has received no call and the session-created hook has
not been invoked. -/
theorem CreateSession_notify_failure (con con' : connection) (sock : Socket)
    (attachment : Option SessionInfo) (env : CreateSessionEnv) (err : Error)
    (hen : con.srv.sessionsEnabled = true) (hs : con.sock = some sock)
    (hc : sock.IsConnected = true) (hsess : con.session = none)
    (hfail : con.notifySessionCreated (NewSession attachment env.generatedKey env.now) env
      = .ok (con', some err)) :
    ∃ result, con.CreateSession attachment env = .ok (result, some
        (Error.Errorf "Couldn't notify client about the session creation: %s" [.err err])) ∧
      result = con ∧ result.session = none ∧
      result.srv.sessionRegistry = con.srv.sessionRegistry ∧
      result.srv.onSessionCreatedCalls = con.srv.onSessionCreatedCalls ∧
      result.srv.errorLog = con.srv.errorLog := by
  have hcon := notifySessionCreated_failure con con' _ env err hfail
  subst hcon
  refine ⟨con', ?_, rfl, hsess, rfl, rfl, rfl⟩
  simp [connection.CreateSession, hen, hs, hc, hsess, hfail]

/-- Witness for C10: the write of the session-created message fails on the
example connection. -/
theorem CreateSession_notify_failure_witness :
    (exampleConnection.srv.sessionsEnabled = true ∧
      exampleConnection.sock = some exampleSocket ∧
      exampleSocket.IsConnected = true ∧ exampleConnection.session = none ∧
      exampleConnection.notifySessionCreated (NewSession none "k1" 7)
          { exampleEnv with writeMsg := some (Error.external "broken pipe") }
        = .ok (exampleConnection, some (Error.external "broken pipe"))) ∧
    ∃ result, exampleConnection.CreateSession none
          { exampleEnv with writeMsg := some (Error.external "broken pipe") } =
        .ok (result, some (Error.Errorf
          "Couldn't notify client about the session creation: %s"
          [.err (Error.external "broken pipe")])) ∧
      result = exampleConnection ∧ result.session = none ∧
      result.srv.sessionRegistry = exampleConnection.srv.sessionRegistry ∧
      result.srv.onSessionCreatedCalls = exampleConnection.srv.onSessionCreatedCalls ∧
      result.srv.errorLog = exampleConnection.srv.errorLog :=
  ⟨⟨rfl, rfl, rfl, rfl, rfl⟩,
    CreateSession_notify_failure exampleConnection exampleConnection exampleSocket none
      { exampleEnv with writeMsg := some (Error.external "broken pipe") }
      (Error.external "broken pipe") rfl rfl rfl rfl rfl⟩

/-- C11, counterexample: on a server with sessions disabled, `CloseSession` on a
connection without session returns `SessionsDisabledErr` instead of no error;
and on a connection with a session whose socket gives no writer the session is
deregistered and cleared but no notification is written. -/
theorem CloseSession_not_silent :
    (newConnection (some exampleSocket) none
        { exampleServer with sessionsEnabled := false } ⟨1⟩ 0).session = none ∧
    (newConnection (some exampleSocket) none
        { exampleServer with sessionsEnabled := false } ⟨1⟩ 0).CloseSession none none =
      .ok (newConnection (some exampleSocket) none
        { exampleServer with sessionsEnabled := false } ⟨1⟩ 0, some Error.SessionsDisabledErr) ∧
    ({ exampleConnection with session := some (NewSession none "k0" 3) }).CloseSession
        (some (Error.external "writer unavailable")) none =
      .ok ({ exampleConnection with
          srv := { exampleServer with
            sessionRegistry := [RegistryCall.deregister (some "k0") true] },
          sock := some { exampleSocket with written := [] } },
        some (Error.external "writer unavailable")) :=
  ⟨rfl, rfl, rfl⟩

/-- C11, amended: on a server with sessions enabled, `CloseSession` on a
connection without session returns no error and returns the connection as it
was (nothing deregistered, nothing written to the socket); on a connection with
a session and a socket it deregisters with `destroy = true`, clears the session
and returns the result of notifying the peer: when the writer is obtained and
the write succeeds the session-closed message is written and no error is
returned, otherwise the error of the writer or of the write is returned and
nothing is written. -/
theorem CloseSession_spec (con : connection) (sock : Socket)
    (getWriter writeMsg : Option Error) (hen : con.srv.sessionsEnabled = true) :
    (con.session = none → con.CloseSession getWriter writeMsg = .ok (con, none)) ∧
    (∀ session, con.session = some session → con.sock = some sock →
      ∃ con' err, con.CloseSession getWriter writeMsg = .ok (con', err) ∧
        con'.session = none ∧
        con'.srv.sessionRegistry =
          con.srv.sessionRegistry ++ [RegistryCall.deregister (some session.Key) true] ∧
        ((getWriter = none ∧ writeMsg = none ∧ err = none ∧
            con'.sock = some { sock with written := sock.written ++ [.sessionClosed] }) ∨
         (getWriter ≠ none ∧ err = getWriter ∧ con'.sock = some sock) ∨
         (getWriter = none ∧ writeMsg ≠ none ∧ err = writeMsg ∧ con'.sock = some sock))) := by
  refine ⟨?_, ?_⟩
  · intro hsess
    simp [connection.CloseSession, hen, hsess]
  · intro session hsess hsock
    have hclose : con.CloseSession getWriter writeMsg =
        ({ con with
          srv := { con.srv with sessionRegistry := con.srv.sessionRegistry ++
            [RegistryCall.deregister (some session.Key) true] },
          session := none } : connection).notifySessionClosed getWriter writeMsg := by
      simp [connection.CloseSession, hen, hsess]
    rw [hclose]
    cases getWriter with
    | some e =>
      refine ⟨{ con with
          srv := { con.srv with sessionRegistry := con.srv.sessionRegistry ++
            [RegistryCall.deregister (some session.Key) true] },
          session := none }, some e, ?_, rfl, rfl, Or.inr (Or.inl ⟨by simp, rfl, hsock⟩)⟩
      simp [connection.notifySessionClosed, hsock]
    | none =>
      cases writeMsg with
      | some e =>
        refine ⟨{ con with
            srv := { con.srv with sessionRegistry := con.srv.sessionRegistry ++
              [RegistryCall.deregister (some session.Key) true] },
            session := none }, some e, ?_, rfl, rfl,
          Or.inr (Or.inr ⟨rfl, by simp, rfl, hsock⟩)⟩
        simp [connection.notifySessionClosed, hsock]
      | none =>
        refine ⟨{ con with
            srv := { con.srv with sessionRegistry := con.srv.sessionRegistry ++
              [RegistryCall.deregister (some session.Key) true] },
            session := none,
            sock := some { sock with written := sock.written ++ [.sessionClosed] } },
          none, ?_, rfl, rfl, Or.inl ⟨rfl, rfl, rfl, rfl⟩⟩
        simp [connection.notifySessionClosed, hsock]

/-- Witness for C11: the example connection without session, and with a
session whose closing is notified. -/
theorem CloseSession_spec_witness :
    exampleConnection.srv.sessionsEnabled = true ∧
    exampleConnection.CloseSession none none = .ok (exampleConnection, none) ∧
    ∃ con' err, ({ exampleConnection with session := some (NewSession none "k0" 3) } :
        connection).CloseSession none none = .ok (con', err) ∧
      con'.session = none ∧
      con'.srv.sessionRegistry =
        ({ exampleConnection with session := some (NewSession none "k0" 3) } :
          connection).srv.sessionRegistry ++
          [RegistryCall.deregister (some (NewSession none "k0" 3).Key) true] ∧
      (((none : Option Error) = none ∧ (none : Option Error) = none ∧ err = none ∧
          con'.sock = some { exampleSocket with
            written := exampleSocket.written ++ [.sessionClosed] }) ∨
       ((none : Option Error) ≠ none ∧ err = none ∧ con'.sock = some exampleSocket) ∨
       ((none : Option Error) = none ∧ (none : Option Error) ≠ none ∧ err = none ∧
          con'.sock = some exampleSocket)) :=
  ⟨rfl, (CloseSession_spec exampleConnection exampleSocket none none rfl).1 rfl,
    (CloseSession_spec { exampleConnection with session := some (NewSession none "k0" 3) }
      exampleSocket none none rfl).2 (NewSession none "k0" 3) rfl rfl⟩

/-- A pass of the reconnection loop whose `connect` returns `ErrDisconnected`
sleeps and goes on. -/
theorem reconnectIteration_disconnected (clt : client) (interval : Nat) (cause : Option Error) :
    clt.reconnectIteration interval (some (Error.ErrDisconnected cause)) =
      ({ clt with events := clt.events ++ [.connect, .sleep interval] }, true) := by
  simp [client.reconnectIteration, reconnectSwitch, client.emit]

/-- A pass of the reconnection loop whose `connect` returns anything but an
`ErrDisconnected` flushes that result and ends the loop; `connecting` is
cleared when the result is nil. -/
theorem reconnectIteration_final (clt : client) (interval : Nat) (result : Option Error)
    (h : ∀ cause, result ≠ some (Error.ErrDisconnected cause)) :
    clt.reconnectIteration interval result =
      ({ clt with events := clt.events ++ [.connect, .flush result],
                  connecting := result.isSome && clt.connecting,
                  loops := clt.loops - 1 }, false) := by
  cases result with
  | none => simp [client.reconnectIteration, reconnectSwitch, client.emit]
  | some e =>
    cases e with
    | ErrDisconnected cause => exact absurd rfl (h cause)
    | _ => simp [client.reconnectIteration, reconnectSwitch, client.emit]

/-- The reconnection loop passes over every leading `ErrDisconnected` result. -/
theorem reconnectLoop_retries (interval : Nat) (pre : List (Option Error)) :
    ∀ (clt : client) (rest : List (Option Error)),
      (∀ x ∈ pre, ∃ cause, x = some (Error.ErrDisconnected cause)) →
      clt.reconnectLoop interval (pre ++ rest) =
        client.reconnectLoop
          { clt with events := clt.events ++ retryEvents interval pre.length } interval rest := by
  induction pre with
  | nil =>
    intro clt rest _
    simp [retryEvents]
  | cons x pre ih =>
    intro clt rest h
    obtain ⟨cause, hx⟩ := h x (List.mem_cons_self _ _)
    subst hx
    simp only [List.cons_append, client.reconnectLoop, reconnectIteration_disconnected,
      List.append_eq]
    rw [ih _ rest (fun y hy => h y (List.mem_cons_of_mem _ hy))]
    simp [retryEvents]

/-- C12: when the results of `connect` are `ErrDisconnected` up to a first
result that is not, the reconnection loop calls `connect` once for each result
up to and including that one, sleeps `ReconnectionInterval` after each
`ErrDisconnected`, then flushes the waiters once, with that result (nil for a
success, the error otherwise), and returns: whatever `connect` would return
afterwards plays no role. -/
theorem reconnectLoop_spec (clt : client) (interval : Nat) (pre post : List (Option Error))
    (result : Option Error)
    (hpre : ∀ x ∈ pre, ∃ cause, x = some (Error.ErrDisconnected cause))
    (hresult : ∀ cause, result ≠ some (Error.ErrDisconnected cause)) :
    clt.reconnectLoop interval (pre ++ result :: post) =
      { clt with
        events := clt.events ++ retryEvents interval pre.length ++ [.connect, .flush result],
        connecting := result.isSome && clt.connecting,
        loops := clt.loops - 1 } := by
  rw [reconnectLoop_retries interval pre clt (result :: post) hpre]
  simp only [client.reconnectLoop, reconnectIteration_final _ interval result hresult]

/-- Witness for C12: two failed attempts, then a success, then results that are
never asked for. -/
theorem reconnectLoop_spec_witness :
    ((∀ x ∈ [some (Error.ErrDisconnected none), some (Error.ErrDisconnected none)],
        ∃ cause, x = some (Error.ErrDisconnected cause)) ∧
      ∀ cause, (none : Option Error) ≠ some (Error.ErrDisconnected cause)) ∧
    (NewClient false).backgroundReconnect.reconnectLoop 500
        ([some (Error.ErrDisconnected none), some (Error.ErrDisconnected none)] ++
          none :: [some (Error.external "unused")]) =
      { (NewClient false).backgroundReconnect with
        events := (NewClient false).backgroundReconnect.events ++
          retryEvents 500
            [some (Error.ErrDisconnected none), some (Error.ErrDisconnected none)].length ++
          [.connect, .flush none],
        connecting := (none : Option Error).isSome &&
          (NewClient false).backgroundReconnect.connecting,
        loops := (NewClient false).backgroundReconnect.loops - 1 } :=
  ⟨⟨by simp, by simp⟩,
    reconnectLoop_spec (NewClient false).backgroundReconnect 500
      [some (Error.ErrDisconnected none), some (Error.ErrDisconnected none)]
      [some (Error.external "unused")] none (by simp) (by simp)⟩

/-- One step of the reconnection machinery keeps the link between the flag and
the number of running loops: no loop runs while `connecting` is false, and
never more than one. -/
theorem reconnectStep_invariant (clt : client) (interval : Nat) (step : ReconnectStep)
    (hflag : clt.connecting = false → clt.loops = 0) (hone : clt.loops ≤ 1) :
    ((clt.reconnectStep interval step).connecting = false →
      (clt.reconnectStep interval step).loops = 0) ∧
    (clt.reconnectStep interval step).loops ≤ 1 := by
  cases step with
  | backgroundReconnect =>
    cases hc : clt.connecting with
    | true =>
      have hstep : clt.reconnectStep interval .backgroundReconnect = clt := by
        simp [client.reconnectStep, client.backgroundReconnect, hc]
      rw [hstep]
      exact ⟨hflag, hone⟩
    | false =>
      have h0 := hflag hc
      simp [client.reconnectStep, client.backgroundReconnect, hc, h0]
  | connectReturns result =>
    by_cases h0 : clt.loops = 0
    · have hstep : clt.reconnectStep interval (.connectReturns result) = clt := by
        simp [client.reconnectStep, h0]
      rw [hstep]
      exact ⟨hflag, hone⟩
    · simp only [client.reconnectStep, h0, if_false]
      have hc : clt.connecting = true := by
        cases hc : clt.connecting with
        | true => rfl
        | false => exact absurd (hflag hc) h0
      cases result with
      | none =>
        simp [client.reconnectIteration, reconnectSwitch, client.emit]
        omega
      | some e =>
        cases e <;>
          simp [client.reconnectIteration, reconnectSwitch, client.emit, hc] <;> omega

/-- The invariant of `reconnectStep_invariant` along a sequence of steps. -/
theorem reconnectSteps_invariant (interval : Nat) (steps : List ReconnectStep) :
    ∀ (clt : client), (clt.connecting = false → clt.loops = 0) → clt.loops ≤ 1 →
      (steps.foldl (fun c s => c.reconnectStep interval s) clt).loops ≤ 1 := by
  induction steps with
  | nil =>
    intro clt _ hone
    exact hone
  | cons step steps ih =>
    intro clt hflag hone
    obtain ⟨hflag', hone'⟩ := reconnectStep_invariant clt interval step hflag hone
    exact ih _ hflag' hone'

/-- C13: a call of `backgroundReconnect` on a client whose `connecting` flag is
set returns the client as it is, so that no loop is started; and along every
sequence of `backgroundReconnect` calls and of `connect` results taken by a
running loop, starting from a new client, at most one loop is running. -/
theorem backgroundReconnect_single_loop (clt : client) (autoconnectOff : Bool)
    (interval : Nat) (steps : List ReconnectStep) :
    ({ clt with connecting := true } : client).backgroundReconnect =
      { clt with connecting := true } ∧
    (steps.foldl (fun c s => c.reconnectStep interval s) (NewClient autoconnectOff)).loops
      ≤ 1 := by
  refine ⟨by simp [client.backgroundReconnect], ?_⟩
  exact reconnectSteps_invariant interval steps (NewClient autoconnectOff)
    (fun _ => by cases autoconnectOff <;> rfl) (by cases autoconnectOff <;> simp [NewClient])

/-- C19, the code at the failing input: a loop started by `backgroundReconnect`
on a new client whose first `connect` returns a handshake error (a
`fmt.Errorf` value or `ErrIncompatibleProtocolVersion`) flushes that error and
returns; no loop is running any more, yet `connecting` is still set, and a
further call of `backgroundReconnect` starts no loop. After a successful
`connect` the flag is cleared and the next call starts a loop. -/
theorem connecting_stays_set_after_fatal_error (autoconnectOff : Bool) (interval : Nat)
    (format : String) (args : List FmtArg) (required supported : String)
    (post : List (Option Error)) :
    ((NewClient autoconnectOff).backgroundReconnect.reconnectLoop interval
        (some (Error.Errorf format args) :: post)).loops = 0 ∧
    ((NewClient autoconnectOff).backgroundReconnect.reconnectLoop interval
        (some (Error.Errorf format args) :: post)).connecting = true ∧
    ((NewClient autoconnectOff).backgroundReconnect.reconnectLoop interval
        (some (Error.Errorf format args) :: post)).backgroundReconnect.loops = 0 ∧
    ((NewClient autoconnectOff).backgroundReconnect.reconnectLoop interval
        (some (Error.ErrIncompatibleProtocolVersion required supported) :: post)
      ).backgroundReconnect.loops = 0 ∧
    ((NewClient autoconnectOff).backgroundReconnect.reconnectLoop interval
        (none :: post)).connecting = false ∧
    ((NewClient autoconnectOff).backgroundReconnect.reconnectLoop interval
        (none :: post)).backgroundReconnect.loops = 1 := by
  cases autoconnectOff <;>
    simp [NewClient, client.backgroundReconnect, client.reconnectLoop,
      client.reconnectIteration, reconnectSwitch, client.emit]

/-- C14: `tryAutoconnect` first turns a deactivated autoconnect state into the
enabled one and leaves the two other states as they are. It calls
`backgroundReconnect` exactly when the client is not connected and the
autoconnect state on entry was not the disabled one, and then returns the
result of awaiting the flush. When the client is connected it returns nil
without calling or awaiting anything; when it is not connected and autoconnect
is disabled it returns `ErrDisconnected` and leaves the client unchanged. -/
theorem tryAutoconnect_spec (clt : client) (await : Option Error) :
    ((clt.tryAutoconnect await).clt.autoconnect =
      (if clt.autoconnect = .autoconnectDeactivated then .autoconnectEnabled
        else clt.autoconnect)) ∧
    ((clt.tryAutoconnect await).calledBackgroundReconnect = true ↔
      clt.status ≠ .StatusConnected ∧ clt.autoconnect ≠ .autoconnectDisabled) ∧
    (clt.status = .StatusConnected →
      (clt.tryAutoconnect await).err = none ∧
      (clt.tryAutoconnect await).awaited = false ∧
      (clt.tryAutoconnect await).clt =
        { clt with autoconnect :=
          compareAndSwap clt.autoconnect .autoconnectDeactivated .autoconnectEnabled }) ∧
    (clt.status ≠ .StatusConnected → clt.autoconnect = .autoconnectDisabled →
      (clt.tryAutoconnect await).err = some (Error.ErrDisconnected none) ∧
      (clt.tryAutoconnect await).awaited = false ∧
      (clt.tryAutoconnect await).clt = clt) ∧
    (clt.status ≠ .StatusConnected → clt.autoconnect ≠ .autoconnectDisabled →
      (clt.tryAutoconnect await).err = await ∧
      (clt.tryAutoconnect await).awaited = true ∧
      (clt.tryAutoconnect await).clt =
        ({ clt with autoconnect := .autoconnectEnabled } : client).backgroundReconnect) := by
  obtain ⟨autoconnect, status, session, connecting, loops, events⟩ := clt
  by_cases hs : status = .StatusConnected
  · cases autoconnect <;> simp [client.tryAutoconnect, compareAndSwap, hs]
  · cases autoconnect <;> cases connecting <;>
      simp [client.tryAutoconnect, compareAndSwap, hs, client.backgroundReconnect]

/-- Witness for C14: a connected client, a disconnected client with autoconnect
disabled, and a new client (autoconnect deactivated, disconnected). -/
theorem tryAutoconnect_spec_witness :
    (({ NewClient false with status := .StatusConnected } : client).tryAutoconnect none).err
        = none ∧
    ((NewClient true).tryAutoconnect none).err = some (Error.ErrDisconnected none) ∧
    ((NewClient true).tryAutoconnect none).clt = NewClient true ∧
    ((NewClient false).tryAutoconnect (some (Error.external "timed out"))).err
        = some (Error.external "timed out") ∧
    ((NewClient false).tryAutoconnect (some (Error.external "timed out"))).clt =
      ({ NewClient false with autoconnect := .autoconnectEnabled } : client).backgroundReconnect ∧
    ((NewClient false).tryAutoconnect none).calledBackgroundReconnect = true :=
  ⟨((tryAutoconnect_spec { NewClient false with status := .StatusConnected } none).2.2.1
      rfl).1,
    ((tryAutoconnect_spec (NewClient true) none).2.2.2.1 (by decide) rfl).1,
    ((tryAutoconnect_spec (NewClient true) none).2.2.2.1 (by decide) rfl).2.2,
    ((tryAutoconnect_spec (NewClient false) (some (Error.external "timed out"))).2.2.2.2
      (by decide) (by decide)).1,
    ((tryAutoconnect_spec (NewClient false) (some (Error.external "timed out"))).2.2.2.2
      (by decide) (by decide)).2.2,
    ((tryAutoconnect_spec (NewClient false) none).2.1).mpr ⟨by decide, by decide⟩⟩

theorem releases_append (a b : List ClientEvent) :
    releases (a ++ b) = releases a + releases b := by
  simp [releases]

/-- A reply message is handed to `Fulfill` and nothing else happens. -/
theorem handleMessage_reply (T : MessageTypes) (clt : client) (env : HandleEnv)
    (msg : ReceivedMessage)
    (h : msg.MsgType = T.MsgReplyBinary ∨ msg.MsgType = T.MsgReplyUtf8 ∨
      msg.MsgType = T.MsgReplyUtf16) :
    clt.handleMessage env T msg =
      ({ clt with events := clt.events ++ [.Fulfill msg] }, none) := by
  rcases h with h | h | h
  · simp [client.handleMessage, client.handleMessageBody, h, client.emit]
  · by_cases h1 : T.MsgReplyUtf8 = T.MsgReplyBinary <;>
      simp [client.handleMessage, client.handleMessageBody, h, h1, client.emit]
  · by_cases h1 : T.MsgReplyUtf16 = T.MsgReplyBinary <;>
      by_cases h2 : T.MsgReplyUtf16 = T.MsgReplyUtf8 <;>
      simp [client.handleMessage, client.handleMessageBody, h, h1, h2, client.emit]

/-- A failure reply fails the request of the message with the error of its
kind and releases the buffer. -/
theorem handleMessage_failure (T : MessageTypes) (hd : T.distinct) (clt : client)
    (env : HandleEnv) (msg : ReceivedMessage) :
    (msg.MsgType = T.MsgReplyShutdown →
      clt.handleMessage env T msg = ({ clt with events := clt.events ++
        [.Fail msg.MsgIdentifier Error.ErrServerShutdown, .msgClose] }, none)) ∧
    (msg.MsgType = T.MsgReplySessionNotFound →
      clt.handleMessage env T msg = ({ clt with events := clt.events ++
        [.Fail msg.MsgIdentifier Error.ErrSessionNotFound, .msgClose] }, none)) ∧
    (msg.MsgType = T.MsgReplyMaxSessConnsReached →
      clt.handleMessage env T msg = ({ clt with events := clt.events ++
        [.Fail msg.MsgIdentifier Error.ErrMaxSessConnsReached, .msgClose] }, none)) ∧
    (msg.MsgType = T.MsgReplySessionsDisabled →
      clt.handleMessage env T msg = ({ clt with events := clt.events ++
        [.Fail msg.MsgIdentifier Error.ErrSessionsDisabled, .msgClose] }, none)) ∧
    (msg.MsgType = T.MsgReplyError →
      clt.handleMessage env T msg = ({ clt with events := clt.events ++
        [.Fail msg.MsgIdentifier
          (Error.ErrRequest (goString msg.MsgName) (goString msg.MsgPayload.Data)),
         .msgClose] }, none)) ∧
    (msg.MsgType = T.MsgReplyInternalError →
      clt.handleMessage env T msg = ({ clt with events := clt.events ++
        [.Fail msg.MsgIdentifier Error.ErrInternal, .msgClose] }, none)) := by
  simp only [MessageTypes.distinct, List.nodup_cons, List.mem_cons, List.mem_singleton,
    not_or, List.not_mem_nil, not_false_eq_true, List.nodup_nil, and_true] at hd
  refine ⟨?_, ?_, ?_, ?_, ?_, ?_⟩ <;> intro h <;>
    simp [client.handleMessage, client.handleMessageBody, h, hd, Ne.symm, client.emit,
      client.handleReplyShutdown, client.handleSessionNotFound,
      client.handleMaxSessConnsReached, client.handleSessionsDisabled,
      client.handleInternalError]

/-- A signal is passed to `OnSignal`; the buffer is released after the hook has
returned, and not at all when the hook panics. -/
theorem handleMessage_signal (T : MessageTypes) (hd : T.distinct) (clt : client)
    (env : HandleEnv) (msg : ReceivedMessage)
    (h : msg.MsgType = T.MsgSignalBinary ∨ msg.MsgType = T.MsgSignalUtf8 ∨
      msg.MsgType = T.MsgSignalUtf16) :
    clt.handleMessage env T msg =
      (match env.OnSignal msg with
        | none => ({ clt with events := clt.events ++ [.OnSignal msg, .msgClose] }, none)
        | some recvErr =>
          ({ clt with events := clt.events ++ [.OnSignal msg] }, some (recoverPanic recvErr))) := by
  simp only [MessageTypes.distinct, List.nodup_cons, List.mem_cons, List.mem_singleton,
    not_or, List.not_mem_nil, not_false_eq_true, List.nodup_nil, and_true] at hd
  rcases h with h | h | h <;> cases hp : env.OnSignal msg <;>
    simp [client.handleMessage, client.handleMessageBody, h, hd, hp, Ne.symm, client.emit]

/-- A session-created notification is passed to `handleSessionCreated`; the
buffer is released after it has returned, and not at all when the hook
panics. -/
theorem handleMessage_sessionCreated (T : MessageTypes) (hd : T.distinct) (clt : client)
    (env : HandleEnv) (msg : ReceivedMessage) (h : msg.MsgType = T.MsgNotifySessionCreated) :
    clt.handleMessage env T msg =
      (match clt.handleSessionCreated env msg.MsgPayload with
        | (clt', none) => ({ clt' with events := clt'.events ++ [.msgClose] }, none)
        | (clt', some recvErr) => (clt', some (recoverPanic recvErr))) := by
  simp only [MessageTypes.distinct, List.nodup_cons, List.mem_cons, List.mem_singleton,
    not_or, List.not_mem_nil, not_false_eq_true, List.nodup_nil, and_true] at hd
  rcases hc : clt.handleSessionCreated env msg.MsgPayload with ⟨clt', _ | recvErr⟩ <;>
    simp [client.handleMessage, client.handleMessageBody, h, hd, hc, Ne.symm, client.emit]

/-- A session-closed notification releases the buffer, clears the session and
then calls `OnSessionClosed`. -/
theorem handleMessage_sessionClosed (T : MessageTypes) (hd : T.distinct) (clt : client)
    (env : HandleEnv) (msg : ReceivedMessage) (h : msg.MsgType = T.MsgNotifySessionClosed) :
    clt.handleMessage env T msg =
      ({ clt with session := none, events := clt.events ++ [.msgClose, .OnSessionClosed] },
        env.OnSessionClosed.map recoverPanic) := by
  simp only [MessageTypes.distinct, List.nodup_cons, List.mem_cons, List.mem_singleton,
    not_or, List.not_mem_nil, not_false_eq_true, List.nodup_nil, and_true] at hd
  cases hp : env.OnSessionClosed <;>
    simp [client.handleMessage, client.handleMessageBody, h, hd, hp, Ne.symm, client.emit,
      client.handleSessionClosed]

/-- A message of any other type is released and a warning is logged. -/
theorem handleMessage_default (T : MessageTypes) (clt : client)
    (env : HandleEnv) (msg : ReceivedMessage)
    (h : ¬ (msg.MsgType = T.MsgReplyBinary ∨ msg.MsgType = T.MsgReplyUtf8 ∨
      msg.MsgType = T.MsgReplyUtf16 ∨ msg.MsgType = T.MsgReplyShutdown ∨
      msg.MsgType = T.MsgReplySessionNotFound ∨ msg.MsgType = T.MsgReplyMaxSessConnsReached ∨
      msg.MsgType = T.MsgReplySessionsDisabled ∨ msg.MsgType = T.MsgReplyError ∨
      msg.MsgType = T.MsgReplyInternalError ∨ msg.MsgType = T.MsgSignalBinary ∨
      msg.MsgType = T.MsgSignalUtf8 ∨ msg.MsgType = T.MsgSignalUtf16 ∨
      msg.MsgType = T.MsgNotifySessionCreated ∨ msg.MsgType = T.MsgNotifySessionClosed)) :
    clt.handleMessage env T msg =
      ({ clt with events := clt.events ++
        [.msgClose, .WarnLog "Strange message type received: '%d'\n" [.num msg.MsgType.val]] },
        none) := by
  simp only [not_or] at h
  simp [client.handleMessage, client.handleMessageBody, h, client.emit]

theorem failedRequests_append (a b : List ClientEvent) :
    failedRequests (a ++ b) = failedRequests a ++ failedRequests b := by
  induction a with
  | nil => rfl
  | cons e a ih => cases e <;> simp [failedRequests, ih]

/-- The events of `handleSessionCreated` when the hook does not panic: the
hook call, or the log entry of a failed decoding. -/
theorem handleSessionCreated_events (clt : client) (env : HandleEnv) (msgPayload : Payload)
    (hcre : ∀ s, env.OnSessionCreated s = none) :
    (clt.handleSessionCreated env msgPayload).2 = none ∧
    ((∃ s, (clt.handleSessionCreated env msgPayload).1.events =
        clt.events ++ [.OnSessionCreated s]) ∨
      (∃ f a, (clt.handleSessionCreated env msgPayload).1.events =
        clt.events ++ [.ErrorLog f a])) := by
  simp only [client.handleSessionCreated]
  cases env.unmarshal msgPayload.Data with
  | error err => exact ⟨rfl, Or.inr ⟨_, _, rfl⟩⟩
  | ok encoded => exact ⟨hcre _, Or.inl ⟨_, rfl⟩⟩

/-- C16: when no user-space hook panics, `handleMessage` returns nil and
releases the message buffer exactly once, except for the three reply kinds,
for which it only hands the message to `Fulfill`. For a signal the release
follows the `OnSignal` call, for a session-created notification it follows the
`OnSessionCreated` call (or the log entry when the session cannot be decoded),
and for a session-closed notification it precedes the `OnSessionClosed`
call. -/
theorem handleMessage_releases_once (T : MessageTypes) (hd : T.distinct) (clt : client)
    (env : HandleEnv) (msg : ReceivedMessage) (hsig : env.OnSignal msg = none)
    (hcre : ∀ s, env.OnSessionCreated s = none) (hclo : env.OnSessionClosed = none) :
    (clt.handleMessage env T msg).2 = none ∧
    releases (clt.handleMessage env T msg).1.events = releases clt.events +
      (if msg.MsgType = T.MsgReplyBinary ∨ msg.MsgType = T.MsgReplyUtf8 ∨
        msg.MsgType = T.MsgReplyUtf16 then 0 else 1) ∧
    (msg.MsgType = T.MsgReplyBinary ∨ msg.MsgType = T.MsgReplyUtf8 ∨
        msg.MsgType = T.MsgReplyUtf16 →
      (clt.handleMessage env T msg).1.events = clt.events ++ [.Fulfill msg]) ∧
    (msg.MsgType = T.MsgSignalBinary ∨ msg.MsgType = T.MsgSignalUtf8 ∨
        msg.MsgType = T.MsgSignalUtf16 →
      (clt.handleMessage env T msg).1.events = clt.events ++ [.OnSignal msg, .msgClose]) ∧
    (msg.MsgType = T.MsgNotifySessionCreated →
      (∃ s, (clt.handleMessage env T msg).1.events =
        clt.events ++ [.OnSessionCreated s, .msgClose]) ∨
      (∃ f a, (clt.handleMessage env T msg).1.events =
        clt.events ++ [.ErrorLog f a, .msgClose])) ∧
    (msg.MsgType = T.MsgNotifySessionClosed →
      (clt.handleMessage env T msg).1.events = clt.events ++ [.msgClose, .OnSessionClosed]) := by
  have hsignal := handleMessage_signal T hd clt env msg
  rw [hsig] at hsignal
  have hclosed := handleMessage_sessionClosed T hd clt env msg
  rw [hclo] at hclosed
  have hcreated := handleMessage_sessionCreated T hd clt env msg
  obtain ⟨hc2, hcev⟩ := handleSessionCreated_events clt env msg.MsgPayload hcre
  have hcreated' : msg.MsgType = T.MsgNotifySessionCreated →
      clt.handleMessage env T msg =
        ({ (clt.handleSessionCreated env msg.MsgPayload).1 with
            events := (clt.handleSessionCreated env msg.MsgPayload).1.events ++ [.msgClose] },
          none) := by
    intro h
    rw [hcreated h]
    rcases hc : clt.handleSessionCreated env msg.MsgPayload with ⟨clt', _ | recvErr⟩
    · rfl
    · rw [hc] at hc2
      exact absurd hc2 (by simp)
  have hrel : ∀ e1 e2 : ClientEvent, releases (clt.events ++ [e1, e2]) =
      releases clt.events + ((if e1.isMsgClose then 1 else 0) + (if e2.isMsgClose then 1 else 0)) := by
    intro e1 e2
    rw [releases_append]
    cases h1 : e1.isMsgClose <;> cases h2 : e2.isMsgClose <;>
      simp [releases, h1, h2]
  refine ⟨?_, ?_, ?_, ?_, ?_, ?_⟩
  · -- no error
    by_cases hr : msg.MsgType = T.MsgReplyBinary ∨ msg.MsgType = T.MsgReplyUtf8 ∨
        msg.MsgType = T.MsgReplyUtf16
    · rw [handleMessage_reply T clt env msg hr]
    by_cases h1 : msg.MsgType = T.MsgReplyShutdown
    · rw [(handleMessage_failure T hd clt env msg).1 h1]
    by_cases h2 : msg.MsgType = T.MsgReplySessionNotFound
    · rw [(handleMessage_failure T hd clt env msg).2.1 h2]
    by_cases h3 : msg.MsgType = T.MsgReplyMaxSessConnsReached
    · rw [(handleMessage_failure T hd clt env msg).2.2.1 h3]
    by_cases h4 : msg.MsgType = T.MsgReplySessionsDisabled
    · rw [(handleMessage_failure T hd clt env msg).2.2.2.1 h4]
    by_cases h5 : msg.MsgType = T.MsgReplyError
    · rw [(handleMessage_failure T hd clt env msg).2.2.2.2.1 h5]
    by_cases h6 : msg.MsgType = T.MsgReplyInternalError
    · rw [(handleMessage_failure T hd clt env msg).2.2.2.2.2 h6]
    by_cases hs : msg.MsgType = T.MsgSignalBinary ∨ msg.MsgType = T.MsgSignalUtf8 ∨
        msg.MsgType = T.MsgSignalUtf16
    · rw [hsignal hs]
    by_cases hc : msg.MsgType = T.MsgNotifySessionCreated
    · rw [hcreated' hc]
    by_cases hcl : msg.MsgType = T.MsgNotifySessionClosed
    · rw [hclosed hcl]
      rfl
    · rw [handleMessage_default T clt env msg (by
        rintro (h | h | h | h | h | h | h | h | h | h | h | h | h | h)
        exacts [hr (.inl h), hr (.inr (.inl h)), hr (.inr (.inr h)), h1 h, h2 h, h3 h,
          h4 h, h5 h, h6 h, hs (.inl h), hs (.inr (.inl h)), hs (.inr (.inr h)), hc h,
          hcl h])]
  · -- one release, none for a reply
    by_cases hr : msg.MsgType = T.MsgReplyBinary ∨ msg.MsgType = T.MsgReplyUtf8 ∨
        msg.MsgType = T.MsgReplyUtf16
    · rw [handleMessage_reply T clt env msg hr, if_pos hr]
      simp [releases_append, releases, ClientEvent.isMsgClose]
    rw [if_neg hr]
    by_cases h1 : msg.MsgType = T.MsgReplyShutdown
    · rw [(handleMessage_failure T hd clt env msg).1 h1]
      exact hrel _ _
    by_cases h2 : msg.MsgType = T.MsgReplySessionNotFound
    · rw [(handleMessage_failure T hd clt env msg).2.1 h2]
      exact hrel _ _
    by_cases h3 : msg.MsgType = T.MsgReplyMaxSessConnsReached
    · rw [(handleMessage_failure T hd clt env msg).2.2.1 h3]
      exact hrel _ _
    by_cases h4 : msg.MsgType = T.MsgReplySessionsDisabled
    · rw [(handleMessage_failure T hd clt env msg).2.2.2.1 h4]
      exact hrel _ _
    by_cases h5 : msg.MsgType = T.MsgReplyError
    · rw [(handleMessage_failure T hd clt env msg).2.2.2.2.1 h5]
      exact hrel _ _
    by_cases h6 : msg.MsgType = T.MsgReplyInternalError
    · rw [(handleMessage_failure T hd clt env msg).2.2.2.2.2 h6]
      exact hrel _ _
    by_cases hs : msg.MsgType = T.MsgSignalBinary ∨ msg.MsgType = T.MsgSignalUtf8 ∨
        msg.MsgType = T.MsgSignalUtf16
    · rw [hsignal hs]
      exact hrel _ _
    by_cases hc : msg.MsgType = T.MsgNotifySessionCreated
    · rw [hcreated' hc]
      rcases hcev with ⟨s, hev⟩ | ⟨f, a, hev⟩ <;>
        simp [hev, releases_append, releases, ClientEvent.isMsgClose]
    by_cases hcl : msg.MsgType = T.MsgNotifySessionClosed
    · rw [hclosed hcl]
      exact hrel _ _
    · rw [handleMessage_default T clt env msg (by
        rintro (h | h | h | h | h | h | h | h | h | h | h | h | h | h)
        exacts [hr (.inl h), hr (.inr (.inl h)), hr (.inr (.inr h)), h1 h, h2 h, h3 h,
          h4 h, h5 h, h6 h, hs (.inl h), hs (.inr (.inl h)), hs (.inr (.inr h)), hc h,
          hcl h])]
      exact hrel _ _
  · intro hr
    rw [handleMessage_reply T clt env msg hr]
  · intro hs
    rw [hsignal hs]
  · intro hc
    rw [hcreated' hc]
    rcases hcev with ⟨s, hev⟩ | ⟨f, a, hev⟩
    · exact Or.inl ⟨s, by simp [hev]⟩
    · exact Or.inr ⟨f, a, by simp [hev]⟩
  · intro hcl
    rw [hclosed hcl]

/-- C17: for each failure reply kind, `handleMessage` returns nil, fails exactly
the request whose identifier the message carries, with the error of the kind
(`ErrRequest` built from the message name and the payload bytes for an error
reply), and releases the buffer; no other `Fail` call is made. -/
theorem handleMessage_fails_request (T : MessageTypes) (hd : T.distinct) (clt : client)
    (env : HandleEnv) (msg : ReceivedMessage) :
    ∀ p ∈ [(T.MsgReplyError,
          Error.ErrRequest (goString msg.MsgName) (goString msg.MsgPayload.Data)),
        (T.MsgReplyInternalError, Error.ErrInternal),
        (T.MsgReplyShutdown, Error.ErrServerShutdown),
        (T.MsgReplySessionNotFound, Error.ErrSessionNotFound),
        (T.MsgReplyMaxSessConnsReached, Error.ErrMaxSessConnsReached),
        (T.MsgReplySessionsDisabled, Error.ErrSessionsDisabled)],
      msg.MsgType = p.1 →
        (clt.handleMessage env T msg).2 = none ∧
        (clt.handleMessage env T msg).1.events =
          clt.events ++ [.Fail msg.MsgIdentifier p.2, .msgClose] ∧
        failedRequests (clt.handleMessage env T msg).1.events =
          failedRequests clt.events ++ [(msg.MsgIdentifier, p.2)] := by
  obtain ⟨h1, h2, h3, h4, h5, h6⟩ := handleMessage_failure T hd clt env msg
  intro p hp
  simp only [List.mem_cons, List.mem_singleton, List.not_mem_nil, or_false] at hp
  rcases hp with rfl | rfl | rfl | rfl | rfl | rfl <;> intro h
  · rw [h5 h]
    exact ⟨rfl, rfl, by simp [failedRequests_append, failedRequests]⟩
  · rw [h6 h]
    exact ⟨rfl, rfl, by simp [failedRequests_append, failedRequests]⟩
  · rw [h1 h]
    exact ⟨rfl, rfl, by simp [failedRequests_append, failedRequests]⟩
  · rw [h2 h]
    exact ⟨rfl, rfl, by simp [failedRequests_append, failedRequests]⟩
  · rw [h3 h]
    exact ⟨rfl, rfl, by simp [failedRequests_append, failedRequests]⟩
  · rw [h4 h]
    exact ⟨rfl, rfl, by simp [failedRequests_append, failedRequests]⟩

/-- Witness for C17: an error reply with code "E1" and message "no" for the
request with identifier 7 on a new client. -/
theorem handleMessage_fails_request_witness :
    exampleMessageTypes.distinct ∧
    ((NewClient false).handleMessage exampleHandleEnv exampleMessageTypes
        exampleErrorReply).2 = none ∧
    ((NewClient false).handleMessage exampleHandleEnv exampleMessageTypes
        exampleErrorReply).1.events =
      (NewClient false).events ++
        [.Fail exampleErrorReply.MsgIdentifier (Error.ErrRequest [69, 49] [110, 111]),
         .msgClose] ∧
    failedRequests ((NewClient false).handleMessage exampleHandleEnv exampleMessageTypes
        exampleErrorReply).1.events =
      failedRequests (NewClient false).events ++
        [(exampleErrorReply.MsgIdentifier, Error.ErrRequest [69, 49] [110, 111])] :=
  ⟨by decide,
    handleMessage_fails_request exampleMessageTypes (by decide) (NewClient false)
      exampleHandleEnv exampleErrorReply
      (exampleMessageTypes.MsgReplyError, Error.ErrRequest [69, 49] [110, 111])
      (List.mem_cons_self _ _) rfl⟩

/-- Witness for C16: a signal handled on a new client whose hooks return. -/
theorem handleMessage_releases_once_witness :
    (exampleMessageTypes.distinct ∧ exampleHandleEnv.OnSignal exampleSignal = none ∧
      (∀ s, exampleHandleEnv.OnSessionCreated s = none) ∧
      exampleHandleEnv.OnSessionClosed = none) ∧
    ((NewClient false).handleMessage exampleHandleEnv exampleMessageTypes exampleSignal).2
        = none ∧
    ((NewClient false).handleMessage exampleHandleEnv exampleMessageTypes
        exampleSignal).1.events =
      (NewClient false).events ++ [.OnSignal exampleSignal, .msgClose] :=
  ⟨⟨by decide, rfl, fun _ => rfl, rfl⟩,
    (handleMessage_releases_once exampleMessageTypes (by decide) (NewClient false)
      exampleHandleEnv exampleSignal rfl (fun _ => rfl) rfl).1,
    (handleMessage_releases_once exampleMessageTypes (by decide) (NewClient false)
      exampleHandleEnv exampleSignal rfl (fun _ => rfl) rfl).2.2.2.1 (Or.inl rfl)⟩

/-- C15, the code at the failing input: when the `OnSignal` hook panics on a
signal, or the `OnSessionCreated` hook on a session-created notification,
`handleMessage` returns the recovered value as an error, and the buffer has not
been released: the `msg.Close()` that follows the hook call is skipped. For a
session-closed notification, which is released before the hook is called, the
buffer has been released once. -/
theorem handleMessage_hook_panic_skips_release (clt : client) (msg : ReceivedMessage)
    (recvErr : PanicValue) :
    clt.handleMessage { exampleHandleEnv with OnSignal := fun _ => some recvErr }
        exampleMessageTypes { msg with MsgType := exampleMessageTypes.MsgSignalBinary } =
      ({ clt with events := clt.events ++
          [.OnSignal { msg with MsgType := exampleMessageTypes.MsgSignalBinary }] },
        some (recoverPanic recvErr)) ∧
    releases (clt.handleMessage { exampleHandleEnv with OnSignal := fun _ => some recvErr }
        exampleMessageTypes
        { msg with MsgType := exampleMessageTypes.MsgSignalBinary }).1.events =
      releases clt.events ∧
    (clt.handleMessage { exampleHandleEnv with OnSessionCreated := fun _ => some recvErr }
        exampleMessageTypes
        { msg with MsgType := exampleMessageTypes.MsgNotifySessionCreated }).2 =
      some (recoverPanic recvErr) ∧
    releases (clt.handleMessage
        { exampleHandleEnv with OnSessionCreated := fun _ => some recvErr }
        exampleMessageTypes
        { msg with MsgType := exampleMessageTypes.MsgNotifySessionCreated }).1.events =
      releases clt.events ∧
    (clt.handleMessage { exampleHandleEnv with OnSessionClosed := some recvErr }
        exampleMessageTypes
        { msg with MsgType := exampleMessageTypes.MsgNotifySessionClosed }).2 =
      some (recoverPanic recvErr) ∧
    releases (clt.handleMessage { exampleHandleEnv with OnSessionClosed := some recvErr }
        exampleMessageTypes
        { msg with MsgType := exampleMessageTypes.MsgNotifySessionClosed }).1.events =
      releases clt.events + 1 := by
  have hd : exampleMessageTypes.distinct := by decide
  refine ⟨?_, ?_, ?_, ?_, ?_, ?_⟩
  · rw [handleMessage_signal exampleMessageTypes hd clt _ _ (Or.inl rfl)]
  · rw [handleMessage_signal exampleMessageTypes hd clt _ _ (Or.inl rfl)]
    simp [releases_append, releases, ClientEvent.isMsgClose]
  · rw [handleMessage_sessionCreated exampleMessageTypes hd clt _ _ rfl]
    simp [client.handleSessionCreated, exampleHandleEnv]
  · rw [handleMessage_sessionCreated exampleMessageTypes hd clt _ _ rfl]
    simp [client.handleSessionCreated, exampleHandleEnv, client.emit, releases_append,
      releases, ClientEvent.isMsgClose]
  · rw [handleMessage_sessionClosed exampleMessageTypes hd clt _ _ rfl]
    rfl
  · rw [handleMessage_sessionClosed exampleMessageTypes hd clt _ _ rfl]
    simp [releases_append, releases, ClientEvent.isMsgClose]

/-- C18: a request whose name and payload data are both empty is refused with
an `ErrProtocol` error and the client is left as it was: no request is created,
nothing is written and the heartbeat is not reset. With a non-empty name or a
non-empty payload the check passes: `sendRequest` goes on to create the request
and to ask for a writer. -/
theorem sendRequest_requires_name_or_payload (clt : client) (env : SendRequestEnv)
    (messageType : Fin 256) (name : Bytes) (payload : Payload) :
    (goLen name = 0 → goLen payload.Data = 0 →
      clt.sendRequest env messageType name payload =
        (clt, none, some (Error.ErrProtocol (some (Error.Errorf
          ("Invalid request, request message requires " ++
            "either a name, a payload or both but is missing both") []))))) ∧
    (goLen name ≠ 0 ∨ goLen payload.Data ≠ 0 →
      ∃ rest, (clt.sendRequest env messageType name payload).1.events =
        clt.events ++ (.Create env.identifier :: .GetWriter :: rest)) := by
  refine ⟨?_, ?_⟩
  · intro h1 h2
    simp [client.sendRequest, h1, h2]
  · intro h
    have hcond : ¬ (goLen name < 1 ∧ goLen payload.Data < 1) := by omega
    simp only [client.sendRequest, hcond, if_false]
    cases env.getWriter with
    | some err => exact ⟨[], by simp [client.emit]⟩
    | none =>
      cases env.writeMsg with
      | some err => exact ⟨_, by simp [client.emit]; rfl⟩
      | none => exact ⟨_, by simp [client.emit]; rfl⟩

/-- Witness for C18: a request without name and payload, and one with a name,
on a new client. -/
theorem sendRequest_requires_name_or_payload_witness :
    (NewClient false).sendRequest exampleSendEnv 0 none ⟨.Binary, some []⟩ =
      (NewClient false, none, some (Error.ErrProtocol (some (Error.Errorf
        ("Invalid request, request message requires " ++
          "either a name, a payload or both but is missing both") [])))) ∧
    ∃ rest, ((NewClient false).sendRequest exampleSendEnv 0 (some [97]) ⟨.Binary, none⟩).1.events =
      (NewClient false).events ++ (.Create exampleSendEnv.identifier :: .GetWriter :: rest) :=
  ⟨(sendRequest_requires_name_or_payload (NewClient false) exampleSendEnv 0 none
      ⟨.Binary, some []⟩).1 rfl rfl,
    (sendRequest_requires_name_or_payload (NewClient false) exampleSendEnv 0 (some [97])
      ⟨.Binary, none⟩).2 (Or.inl (by decide))⟩

/-- C20, the code at the failing input: when `GetWriter` fails for a request
with a non-empty name, `sendRequest` returns that error after it has created
the request, and no `Fail` call is made for it. When the write fails instead,
the request is failed with the write error and `ErrTransmission` is
returned. -/
theorem sendRequest_writer_failure_keeps_request (clt : client) (env : SendRequestEnv)
    (messageType : Fin 256) (b : Fin 256) (bs : List (Fin 256)) (payload : Payload)
    (err : Error) :
    clt.sendRequest { env with getWriter := some err } messageType (some (b :: bs)) payload =
      ({ clt with events := clt.events ++ [.Create env.identifier, .GetWriter] },
        none, some err) ∧
    failedRequests (clt.sendRequest { env with getWriter := some err } messageType
        (some (b :: bs)) payload).1.events = failedRequests clt.events ∧
    (clt.sendRequest { env with getWriter := none, writeMsg := some err } messageType
        (some (b :: bs)) payload).2.2 = some (Error.ErrTransmission (some err)) ∧
    failedRequests (clt.sendRequest { env with getWriter := none, writeMsg := some err }
        messageType (some (b :: bs)) payload).1.events =
      failedRequests clt.events ++ [(env.identifier, err)] := by
  refine ⟨?_, ?_, ?_, ?_⟩ <;>
    simp [client.sendRequest, goLen, client.emit, failedRequests_append, failedRequests]

/-- C21: the sub-protocol check written inline in `dial` and
`compareSubProtocols` accept the same pairs of names. For a server name and a
client name, each nil or a byte slice, and a message that passes the checks
made before (accept-configuration kind, major version 2), `dial` returns one of
its three "mismatching sub-protocols" errors exactly when `compareSubProtocols`
returns an error, whatever the two buffer sizes; and when the buffer sizes
agree, `dial` succeeds exactly when `compareSubProtocols` returns nil. -/
theorem dial_subprotocol_check_iff_compareSubProtocols (MsgAcceptConf minor : Fin 256)
    (server client : Bytes) (serverSize clientSize : Nat) :
    (((dial MsgAcceptConf { SubProtocolName := client, MessageBufferSize := clientSize } none
          (.ok { MsgType := MsgAcceptConf, ServerConfiguration :=
            { MajorProtocolVersion := 2, MinorProtocolVersion := minor,
              SubProtocolName := server, MessageBufferSize := serverSize } })
          .resultFirst).2 =
        some (Error.Errorf "mismatching sub-protocols (server: %s; client: nil)"
          [.bytes server]) ∨
      (dial MsgAcceptConf { SubProtocolName := client, MessageBufferSize := clientSize } none
          (.ok { MsgType := MsgAcceptConf, ServerConfiguration :=
            { MajorProtocolVersion := 2, MinorProtocolVersion := minor,
              SubProtocolName := server, MessageBufferSize := serverSize } })
          .resultFirst).2 =
        some (Error.Errorf "mismatching sub-protocols (server: nil; client: %s)"
          [.bytes client]) ∨
      (dial MsgAcceptConf { SubProtocolName := client, MessageBufferSize := clientSize } none
          (.ok { MsgType := MsgAcceptConf, ServerConfiguration :=
            { MajorProtocolVersion := 2, MinorProtocolVersion := minor,
              SubProtocolName := server, MessageBufferSize := serverSize } })
          .resultFirst).2 =
        some (Error.Errorf "mismatching sub-protocols (server: %s; client: %s)"
          [.bytes server, .bytes client])) ↔
      compareSubProtocols server client ≠ none) ∧
    ((dial MsgAcceptConf { SubProtocolName := client, MessageBufferSize := clientSize } none
          (.ok { MsgType := MsgAcceptConf, ServerConfiguration :=
            { MajorProtocolVersion := 2, MinorProtocolVersion := minor,
              SubProtocolName := server, MessageBufferSize := clientSize } })
          .resultFirst).2 = none ↔
      compareSubProtocols server client = none) := by
  refine ⟨?_, ?_⟩
  · by_cases hsize : clientSize = serverSize
    · rcases server with _ | s <;> rcases client with _ | c
      · simp [dial, dialRoutine, verifyProtocolVersion, compareSubProtocols, bytesEqual, hsize]
      · simp [dial, dialRoutine, verifyProtocolVersion, compareSubProtocols, bytesEqual, hsize]
      · simp [dial, dialRoutine, verifyProtocolVersion, compareSubProtocols, bytesEqual, hsize]
      · by_cases h : s = c <;>
          simp [dial, dialRoutine, verifyProtocolVersion, compareSubProtocols, bytesEqual,
            hsize, h]
    · rcases server with _ | s <;> rcases client with _ | c
      · simp [dial, dialRoutine, verifyProtocolVersion, compareSubProtocols, bytesEqual, hsize]
      · simp [dial, dialRoutine, verifyProtocolVersion, compareSubProtocols, bytesEqual, hsize]
      · simp [dial, dialRoutine, verifyProtocolVersion, compareSubProtocols, bytesEqual, hsize]
      · by_cases h : s = c <;>
          simp [dial, dialRoutine, verifyProtocolVersion, compareSubProtocols, bytesEqual,
            hsize, h]
  · rcases server with _ | s <;> rcases client with _ | c
    · simp [dial, dialRoutine, verifyProtocolVersion, compareSubProtocols, bytesEqual]
    · simp [dial, dialRoutine, verifyProtocolVersion, compareSubProtocols, bytesEqual]
    · simp [dial, dialRoutine, verifyProtocolVersion, compareSubProtocols, bytesEqual]
    · by_cases h : s = c <;>
        simp [dial, dialRoutine, verifyProtocolVersion, compareSubProtocols, bytesEqual, h]

end Webwire
